import Mathlib

/-!
Verification development for the geminicli2api proxy.

The Python source is shallowly embedded: JSON documents become an inductive
type, Python dicts become association lists, fallible operations (Python
exceptions) become Except values, and the streaming generator becomes a
recursive function over a script of upstream events.
-/

set_option maxHeartbeats 1000000
set_option maxRecDepth 4096

/-- JSON values as produced by json.loads; Python dicts keep insertion order,
so objects are association lists. Numbers are rationals (all numeric values
appearing in the verified claims are integral). -/
inductive Json where
  | null : Json
  | bool (b : Bool) : Json
  | num (q : ℚ) : Json
  | str (s : String) : Json
  | arr (elems : List Json) : Json
  | obj (fields : List (String × Json)) : Json

/-- A Python dict with string keys, keeping insertion order. -/
abbrev PyDict := List (String × Json)

/-- dict lookup: first binding of the key (Python dicts have unique keys;
the embedding uses the first one). -/
def pyLookup (d : PyDict) (k : String) : Option Json :=
  match d with
  | [] => none
  | (k₁, v) :: rest => if k₁ = k then some v else pyLookup rest k

/-- Python d.get(k, default). -/
def pyGetD (d : PyDict) (k : String) (default : Json) : Json :=
  (pyLookup d k).getD default

/-- Python dict assignment d[k] = v: replace in place when the key exists,
append at the end otherwise. -/
def pySet (d : PyDict) (k : String) (v : Json) : PyDict :=
  match d with
  | [] => [(k, v)]
  | (k₁, v₁) :: rest =>
      if k₁ = k then (k₁, v) :: rest else (k₁, v₁) :: pySet rest k v

/-- Python key-membership test on a dict. -/
def pyHasKey (d : PyDict) (k : String) : Bool :=
  (pyLookup d k).isSome

/-- Python truthiness of a JSON value. -/
def pyTruthy : Json → Bool
  | .null => false
  | .bool b => b
  | .num q => q ≠ 0
  | .str s => s ≠ ""
  | .arr l => !l.isEmpty
  | .obj l => !l.isEmpty

example : pyLookup [("a", Json.num 1)] "a" = some (Json.num 1) := rfl

/-- listStartsWith pat l: the char list l begins with pat. -/
def listStartsWith : List Char → List Char → Bool
  | [], _ => true
  | _ :: _, [] => false
  | p :: ps, c :: cs => p = c && listStartsWith ps cs

/-- subOccursIn sub l: sub occurs as a contiguous run somewhere in l. -/
def subOccursIn (sub : List Char) : List Char → Bool
  | [] => sub.isEmpty
  | c :: rest => listStartsWith sub (c :: rest) || subOccursIn sub rest

/-- The Python substring test: sub in s. -/
def strContains (s sub : String) : Bool := subOccursIn sub.data s.data

/-- Python str.endswith. -/
def strEndsWith (s sfx : String) : Bool :=
  listStartsWith sfx.data.reverse s.data.reverse

/-- Removal of the last n characters, as Python slicing s[:-n] does for
nonempty suffixes. -/
def strDropLast (s : String) (n : Nat) : String :=
  String.mk (s.data.take (s.data.length - n))

namespace Cfg

/-- config.get_base_model_name: strip the first matching trailing variant
suffix, trying -maxthinking, -nothinking, -search in that order. -/
def get_base_model_name (model_name : String) : String :=
  if strEndsWith model_name "-maxthinking" then strDropLast model_name 12
  else if strEndsWith model_name "-nothinking" then strDropLast model_name 11
  else if strEndsWith model_name "-search" then strDropLast model_name 7
  else model_name

/-- config.is_search_model: substring test for -search. -/
def is_search_model (model_name : String) : Bool := strContains model_name "-search"

/-- config.is_nothinking_model: substring test for -nothinking. -/
def is_nothinking_model (model_name : String) : Bool := strContains model_name "-nothinking"

/-- config.is_maxthinking_model: substring test for -maxthinking. -/
def is_maxthinking_model (model_name : String) : Bool := strContains model_name "-maxthinking"

/-- config.get_thinking_budget. The Python function falls off the end of the
branch ladders for unmatched bases, returning None; hence Option Int. -/
def get_thinking_budget (model_name : String) : Option Int :=
  let base_model := get_base_model_name model_name
  if is_nothinking_model model_name then
    if strContains base_model "gemini-2.5-flash" then some 0
    else if strContains base_model "gemini-2.5-pro" then some 128
    else if strContains base_model "gemini-3-pro" then some 128
    else none
  else if is_maxthinking_model model_name then
    if strContains base_model "gemini-2.5-flash" then some 24576
    else if strContains base_model "gemini-2.5-pro" then some 32768
    else if strContains base_model "gemini-3-pro" then some 45000
    else none
  else some (-1)

/-- config.should_include_thoughts. -/
def should_include_thoughts (model_name : String) : Bool :=
  if is_nothinking_model model_name then
    let base_model := get_base_model_name model_name
    strContains base_model "gemini-2.5-pro" || strContains base_model "gemini-3-pro"
  else true

end Cfg

namespace MHelpers

/-- models/helpers.get_thinking_budget: same ladder as the config version but
total, with explicit defaults 0 and 32768 for unmatched bases. -/
def get_thinking_budget (model_name : String) : Int :=
  let base_model := Cfg.get_base_model_name model_name
  if Cfg.is_nothinking_model model_name then
    if strContains base_model "gemini-2.5-flash" then 0
    else if strContains base_model "gemini-2.5-pro" then 128
    else if strContains base_model "gemini-3-pro" then 128
    else 0
  else if Cfg.is_maxthinking_model model_name then
    if strContains base_model "gemini-2.5-flash" then 24576
    else if strContains base_model "gemini-2.5-pro" then 32768
    else if strContains base_model "gemini-3-pro" then 45000
    else 32768
  else -1

end MHelpers

/-- config.DEFAULT_SAFETY_SETTINGS: the permissive default set. -/
def DEFAULT_SAFETY_SETTINGS : Json :=
  .arr ([
    "HARM_CATEGORY_HARASSMENT",
    "HARM_CATEGORY_HATE_SPEECH",
    "HARM_CATEGORY_SEXUALLY_EXPLICIT",
    "HARM_CATEGORY_DANGEROUS_CONTENT",
    "HARM_CATEGORY_CIVIC_INTEGRITY",
    "HARM_CATEGORY_IMAGE_DANGEROUS_CONTENT",
    "HARM_CATEGORY_IMAGE_HARASSMENT",
    "HARM_CATEGORY_IMAGE_HATE",
    "HARM_CATEGORY_IMAGE_SEXUALLY_EXPLICIT",
    "HARM_CATEGORY_UNSPECIFIED",
    "HARM_CATEGORY_JAILBREAK"
  ].map fun c => .obj [("category", .str c), ("threshold", .str "BLOCK_NONE")])

/-- One hex digit, lowercase, as json.dumps emits in escapes. -/
def hexDigit (n : Nat) : Char :=
  if n < 10 then Char.ofNat (48 + n) else Char.ofNat (87 + n)

/-- Four lowercase hex digits. -/
def hex4 (n : Nat) : String :=
  String.mk [hexDigit (n / 4096 % 16), hexDigit (n / 256 % 16),
             hexDigit (n / 16 % 16), hexDigit (n % 16)]

/-- json.dumps escaping of a single character (ensure_ascii=True). -/
def escChar (c : Char) : String :=
  if c = '"' then "\\\""
  else if c = '\\' then "\\\\"
  else if c = '\n' then "\\n"
  else if c = '\r' then "\\r"
  else if c = '\t' then "\\t"
  else if c.toNat = 8 then "\\b"
  else if c.toNat = 12 then "\\f"
  else if c.toNat < 32 || 126 < c.toNat then
    if c.toNat ≤ 0xFFFF then "\\u" ++ hex4 c.toNat
    else
      let v := c.toNat - 0x10000
      "\\u" ++ hex4 (0xD800 + v / 1024) ++ "\\u" ++ hex4 (0xDC00 + v % 1024)
  else String.singleton c

/-- json.dumps escaping of a string body. -/
def escapeJsonString (s : String) : String :=
  s.data.foldl (fun acc c => acc ++ escChar c) ""

/-- Rendering of a JSON number. Integral values match Python exactly; the
non-integral case abstracts the Python float repr (no verified claim
evaluates a non-integral number). -/
def renderNum (q : ℚ) : String :=
  if q.den = 1 then toString q.num else toString q

mutual

/-- json.dumps with the given item and key separators. -/
def dumpsW (isep ksep : String) : Json → String
  | .null => "null"
  | .bool b => if b then "true" else "false"
  | .num q => renderNum q
  | .str s => "\"" ++ escapeJsonString s ++ "\""
  | .arr l => "[" ++ dumpsListW isep ksep l ++ "]"
  | .obj l => "\x7b" ++ dumpsObjW isep ksep l ++ "\x7d"

/-- Array elements joined by the item separator. -/
def dumpsListW (isep ksep : String) : List Json → String
  | [] => ""
  | [x] => dumpsW isep ksep x
  | x :: y :: rest => dumpsW isep ksep x ++ isep ++ dumpsListW isep ksep (y :: rest)

/-- Object entries joined by the item separator. -/
def dumpsObjW (isep ksep : String) : List (String × Json) → String
  | [] => ""
  | [(k, v)] => "\"" ++ escapeJsonString k ++ "\"" ++ ksep ++ dumpsW isep ksep v
  | (k, v) :: e :: rest =>
      "\"" ++ escapeJsonString k ++ "\"" ++ ksep ++ dumpsW isep ksep v ++ isep ++
        dumpsObjW isep ksep (e :: rest)

end

/-- json.dumps(x, separators=(",", ":")) as used for streamed data frames. -/
def dumpsCompact (j : Json) : String := dumpsW "," ":" j

/-- json.dumps(x) with the default separators. -/
def dumpsDefault (j : Json) : String := dumpsW ", " ": " j

example : dumpsCompact (.obj [("a", .num 1)]) = "\x7b\"a\":1\x7d" := rfl
example : Cfg.get_base_model_name "gemini-2.5-flash-maxthinking" = "gemini-2.5-flash" := rfl
example : Cfg.get_thinking_budget "gemini-2.5-flash-maxthinking" = some 24576 := rfl
example : Cfg.should_include_thoughts "gemini-2.5-flash-maxthinking" = true := rfl

/-- Lexicographic code-point comparison of char lists, matching Python
string ordering for the ASCII names involved. -/
def charsLe : List Char → List Char → Bool
  | [], _ => true
  | _ :: _, [] => false
  | a :: as, b :: bs => if a = b then charsLe as bs else decide (a.toNat < b.toNat)

/-- Python string less-or-equal, via code points. -/
def strLeP (a b : String) : Bool := charsLe a.data b.data

/-- A static model record from models/gemini.py. -/
structure ModelInfo where
  name : String
  version : String
  displayName : String
  description : String
  inputTokenLimit : Nat
  outputTokenLimit : Nat
  supportedGenerationMethods : List String
  temperature : ℚ
  maxTemperature : ℚ
  topP : ℚ
  topK : Nat
deriving DecidableEq, Repr

/-- The fields shared verbatim by every base record in models/gemini.py. -/
def mkGeminiModel (name displayName description : String)
    (inLim outLim : Nat) : ModelInfo :=
  { name := name, version := "001", displayName := displayName,
    description := description, inputTokenLimit := inLim,
    outputTokenLimit := outLim,
    supportedGenerationMethods := ["generateContent", "streamGenerateContent"],
    temperature := 1, maxTemperature := 2, topP := 95/100, topK := 64 }

/-- models/gemini.BASE_MODELS. -/
def BASE_MODELS : List ModelInfo :=
  [ mkGeminiModel "models/gemini-2.5-pro-preview-03-25" "Gemini 2.5 Pro Preview 03-25"
      "Preview version of Gemini 2.5 Pro from May 6th" 1048576 65535,
    mkGeminiModel "models/gemini-2.5-pro-preview-05-06" "Gemini 2.5 Pro Preview 05-06"
      "Preview version of Gemini 2.5 Pro from May 6th" 1048576 65535,
    mkGeminiModel "models/gemini-2.5-pro-preview-06-05" "Gemini 2.5 Pro Preview 06-05"
      "Preview version of Gemini 2.5 Pro from June 5th" 1048576 65535,
    mkGeminiModel "models/gemini-2.5-pro" "Gemini 2.5 Pro"
      "Advanced multimodal model with enhanced capabilities" 1048576 65535,
    mkGeminiModel "models/gemini-2.5-flash-preview-05-20" "Gemini 2.5 Flash Preview 05-20"
      "Preview version of Gemini 2.5 Flash from May 20th" 1048576 65535,
    mkGeminiModel "models/gemini-2.5-flash-preview-04-17" "Gemini 2.5 Flash Preview 04-17"
      "Preview version of Gemini 2.5 Flash from April 17th" 1048576 65535,
    mkGeminiModel "models/gemini-2.5-flash" "Gemini 2.5 Flash"
      "Fast and efficient multimodal model with latest improvements" 1048576 65535,
    mkGeminiModel "models/gemini-2.5-flash-image-preview" "Gemini 2.5 Flash Image Preview"
      "Gemini 2.5 Flash Image Preview" 32768 32768,
    mkGeminiModel "models/gemini-3-pro-preview" "Gemini 3.0 Pro Preview 11-2025"
      "Preview version of Gemini 3.0 Pro from November 2025" 1048576 65535 ]

/-- models/gemini._generate_search_variants. -/
def generate_search_variants : List ModelInfo :=
  (BASE_MODELS.filter fun m => !(strContains m.name "gemini-2.5-flash-image")).filterMap
    fun m =>
      if m.supportedGenerationMethods.contains "generateContent" then
        some { m with
          name := m.name ++ "-search",
          displayName := m.displayName ++ " with Google Search",
          description := m.description ++ " (includes Google Search grounding)" }
      else none

/-- models/gemini._generate_thinking_variants: a -nothinking then a
-maxthinking copy for each eligible base. -/
def generate_thinking_variants : List ModelInfo :=
  (BASE_MODELS.filter fun m => !(strContains m.name "gemini-2.5-flash-image")).bind
    fun m =>
      if m.supportedGenerationMethods.contains "generateContent" &&
          (strContains m.name "gemini-2.5-flash" || strContains m.name "gemini-2.5-pro") then
        [ { m with
            name := m.name ++ "-nothinking",
            displayName := m.displayName ++ " (No Thinking)",
            description := m.description ++ " (thinking disabled)" },
          { m with
            name := m.name ++ "-maxthinking",
            displayName := m.displayName ++ " (Max Thinking)",
            description := m.description ++ " (maximum thinking budget)" } ]
      else []

/-- Stable insertion by name, used to model the Python sorted call. -/
def insertByName (m : ModelInfo) : List ModelInfo → List ModelInfo
  | [] => [m]
  | x :: xs => if strLeP x.name m.name then x :: insertByName m xs else m :: x :: xs

/-- sorted(key=name) on model records. -/
def sortByName (l : List ModelInfo) : List ModelInfo :=
  l.foldl (fun acc m => insertByName m acc) []

/-- models/gemini.SUPPORTED_MODELS: bases plus search and thinking variants,
sorted by name. -/
def SUPPORTED_MODELS : List ModelInfo :=
  sortByName (BASE_MODELS ++ generate_search_variants ++ generate_thinking_variants)

/-- The names the catalog exposes. -/
def supportedModelNames : List String := SUPPORTED_MODELS.map (fun m => m.name)

/-- Boolean sortedness check by name. -/
def namesSortedLe : List String → Bool
  | [] => true
  | [_] => true
  | a :: b :: rest => strLeP a b && namesSortedLe (b :: rest)

/-- Insertion into a sorted list of names. -/
def insertName (s : String) : List String → List String
  | [] => [s]
  | x :: xs => if strLeP x s then x :: insertName s xs else s :: x :: xs

/-- sorted() on plain names. -/
def sortNames (l : List String) : List String :=
  l.foldl (fun acc s => insertName s acc) []

/-- Names of the static base list. -/
def baseModelNames : List String := BASE_MODELS.map (fun m => m.name)

/-- Spec-side definition, following the claim text: a -search variant for
every base supporting generateContent except the image-preview base. -/
def specSearchVariantNames : List String :=
  (BASE_MODELS.filter fun m =>
      m.supportedGenerationMethods.contains "generateContent" &&
      !(strContains m.name "gemini-2.5-flash-image")).map
    (fun m => m.name ++ "-search")

/-- Spec-side definition, following the claim text: -nothinking and
-maxthinking variants for the flash / pro 2.5 and pro 3 bases (read as the
non-image bases whose names contain gemini-2.5-flash, gemini-2.5-pro or
gemini-3-pro). -/
def specThinkingVariantNamesWithPro3 : List String :=
  (BASE_MODELS.filter fun m =>
      m.supportedGenerationMethods.contains "generateContent" &&
      !(strContains m.name "gemini-2.5-flash-image") &&
      (strContains m.name "gemini-2.5-flash" || strContains m.name "gemini-2.5-pro" ||
        strContains m.name "gemini-3-pro")).flatMap
    (fun m => [m.name ++ "-nothinking", m.name ++ "-maxthinking"])

/-- The catalog the claim describes: bases plus the variants above, sorted
by name. -/
def specClaimCatalogNames : List String :=
  sortNames (baseModelNames ++ specSearchVariantNames ++ specThinkingVariantNamesWithPro3)

/-- Amended spec-side catalog: thinking variants only for the 2.5 flash and
2.5 pro bases; the pro 3 base keeps only its search variant. -/
def specThinkingVariantNames25 : List String :=
  (BASE_MODELS.filter fun m =>
      m.supportedGenerationMethods.contains "generateContent" &&
      !(strContains m.name "gemini-2.5-flash-image") &&
      (strContains m.name "gemini-2.5-flash" || strContains m.name "gemini-2.5-pro")).flatMap
    (fun m => [m.name ++ "-nothinking", m.name ++ "-maxthinking"])

/-- The amended catalog description, sorted by name. -/
def specAmendedCatalogNames : List String :=
  sortNames (baseModelNames ++ specSearchVariantNames ++ specThinkingVariantNames25)

example : supportedModelNames = specAmendedCatalogNames := by decide
example : ("models/gemini-3-pro-preview-nothinking" ∈ specClaimCatalogNames) := by decide

/-- Python str.startswith. -/
def strStartsWith (s p : String) : Bool := listStartsWith p.data s.data

/-- Removal of the first n characters, as Python slicing s[n:]. -/
def strDropN (s : String) (n : Nat) : String := String.mk (s.data.drop n)

/-- http_retry.RetryConfig. Delays are modelled as rationals. -/
structure RetryConfig where
  max_attempts : Nat
  base_delay_s : ℚ
  max_delay_s : ℚ
  retryable_status_codes : List Nat

/-- http_retry._compute_backoff_s with the random draw r passed explicitly:
full jitter over min(max, base times 2 to the attempt-1). Natural
subtraction matches the Python max(0, attempt - 1). -/
def compute_backoff_s (attempt : Nat) (base_delay_s max_delay_s : ℚ) (r : ℚ) : ℚ :=
  r * min max_delay_s (base_delay_s * 2 ^ (attempt - 1))

/-- http_retry.sleep_before_retry: the slept delay. When Retry-After was
parsed, the delay is raised to at least min(max_delay, retry_after). -/
def sleep_delay_s (attempt : Nat) (cfg : RetryConfig) (retry_after_s : Option ℚ)
    (r : ℚ) : ℚ :=
  let delay := compute_backoff_s attempt cfg.base_delay_s cfg.max_delay_s r
  match retry_after_s with
  | none => delay
  | some ra => max delay (min cfg.max_delay_s ra)

/-- The outcome the environment hands one unary POST attempt: a response
with a status and parsed Retry-After, or a raised exception (retryable
when of one of the retryable transport classes). -/
inductive UnaryOutcome where
  | resp (status : Nat) (retryAfter : Option ℚ)
  | exc (retryable : Bool) (msg : String)

/-- Result of the post_with_retry loop: the returned status (ok some), a
truncated script (ok none), a raised exception (error), and the list of
(retry-after, wait) pairs slept between attempts. -/
structure UnaryRun where
  result : Except String (Option Nat)
  waits : List (Option ℚ × ℚ)

/-- http_retry.post_with_retry over a script of attempt outcomes; the
jitter draw of attempt n is r n. -/
def post_with_retry_go (cfg : RetryConfig) (r : Nat → ℚ) :
    List UnaryOutcome → Nat → Option String → UnaryRun
  | script, attempt, lastExc =>
    if cfg.max_attempts < attempt then
      match lastExc with
      | some m => ⟨.error m, []⟩
      | none => ⟨.error "post_with_retry exhausted without response", []⟩
    else
      match script with
      | [] => ⟨.ok none, []⟩
      | .resp status ra :: rest =>
          if status ∈ cfg.retryable_status_codes ∧ attempt < cfg.max_attempts then
            let w := sleep_delay_s (attempt + 1) cfg ra (r attempt)
            let k := post_with_retry_go cfg r rest (attempt + 1) lastExc
            ⟨k.result, (ra, w) :: k.waits⟩
          else ⟨.ok (some status), []⟩
      | .exc retryable m :: rest =>
          if retryable then
            if cfg.max_attempts ≤ attempt then ⟨.error m, []⟩
            else
              let w := sleep_delay_s (attempt + 1) cfg none (r attempt)
              let k := post_with_retry_go cfg r rest (attempt + 1) (some m)
              ⟨k.result, (none, w) :: k.waits⟩
          else ⟨.error m, []⟩

/-- post_with_retry starting at attempt 1. -/
def post_with_retry (cfg : RetryConfig) (r : Nat → ℚ) (script : List UnaryOutcome) :
    UnaryRun :=
  post_with_retry_go cfg r script 1 none

/-- Json null test, Python v is None. -/
def Json.isNull : Json → Bool
  | .null => true
  | _ => false

/-- The envelope piece built by the payload builders. -/
structure GeminiPayload where
  model : Json
  request : PyDict

/-- google_api_client.build_gemini_payload_from_openai. -/
def build_gemini_payload_from_openai (openai_payload : PyDict) : GeminiPayload :=
  let model := pyGetD openai_payload "model" .null
  let safety_settings := pyGetD openai_payload "safetySettings" DEFAULT_SAFETY_SETTINGS
  let request_data : PyDict := [
    ("contents", pyGetD openai_payload "contents" .null),
    ("systemInstruction", pyGetD openai_payload "systemInstruction" .null),
    ("cachedContent", pyGetD openai_payload "cachedContent" .null),
    ("tools", pyGetD openai_payload "tools" .null),
    ("toolConfig", pyGetD openai_payload "toolConfig" .null),
    ("safetySettings", safety_settings),
    ("generationConfig", pyGetD openai_payload "generationConfig" (.obj []))]
  let request_data := request_data.filter fun kv => !kv.2.isNull
  ⟨model, request_data⟩

/-- Python in-test on an arbitrary JSON value; raises TypeError on
non-iterable values. -/
def pyInJ (k : String) : Json → Except String Bool
  | .obj kvs => .ok (pyHasKey kvs k)
  | .arr l => .ok (l.any fun e => match e with | .str s => s = k | _ => false)
  | .str s => .ok (strContains s k)
  | _ => .error "TypeError: argument is not iterable"

/-- Python string subscript j[k]; raises unless j is a dict holding k. -/
def pyGetItemJ (j : Json) (k : String) : Except String Json :=
  match j with
  | .obj kvs =>
      match pyLookup kvs k with
      | some v => .ok v
      | none => .error "KeyError"
  | _ => .error "TypeError: not subscriptable by string"

/-- Python string-key item assignment j[k] = v; raises unless j is a dict. -/
def pySetItemJ (j : Json) (k : String) (v : Json) : Except String Json :=
  match j with
  | .obj kvs => .ok (.obj (pySet kvs k v))
  | _ => .error "TypeError: item assignment unsupported"

/-- any(tool.get("googleSearch") for tool in tools): short-circuits on the
first truthy hit, raises AttributeError on a non-dict element reached
before one. -/
def anyGoogleSearch : List Json → Except String Bool
  | [] => .ok false
  | .obj kvs :: rest =>
      if pyTruthy (pyGetD kvs "googleSearch" .null) then .ok true
      else anyGoogleSearch rest
  | _ :: _ => .error "AttributeError: no attribute get"

/-- google_api_client.build_gemini_payload_from_native. In-place mutation of
nested dicts is modelled by read-modify-write; Python exceptions from
non-dict shapes become Except errors. -/
def build_gemini_payload_from_native (native_request : PyDict) (model_from_path : String) :
    Except String GeminiPayload := do
  let d := pySet native_request "safetySettings" DEFAULT_SAFETY_SETTINGS
  let d := if pyHasKey d "generationConfig" then d
           else pySet d "generationConfig" (.obj [])
  let gc := pyGetD d "generationConfig" .null
  let tcPresent ← pyInJ "thinkingConfig" gc
  let (d, gc) ←
    if tcPresent then pure (d, gc)
    else do
      let gc2 ← pySetItemJ gc "thinkingConfig" (.obj [])
      pure (pySet d "generationConfig" gc2, gc2)
  let d ←
    if strContains model_from_path "gemini-2.5-flash-image" then pure d
    else do
      let thinking_budget := Cfg.get_thinking_budget model_from_path
      let include_thoughts := Cfg.should_include_thoughts model_from_path
      let tc ← pyGetItemJ gc "thinkingConfig"
      let tc ← pySetItemJ tc "includeThoughts" (.bool include_thoughts)
      let tbPresent ← pyInJ "thinkingBudget" tc
      let tc ←
        if tbPresent then pure tc
        else pySetItemJ tc "thinkingBudget"
              (match thinking_budget with | some b => .num b | none => .null)
      let gc2 ← pySetItemJ gc "thinkingConfig" tc
      pure (pySet d "generationConfig" gc2)
  let d ←
    if Cfg.is_search_model model_from_path then do
      let d := if pyHasKey d "tools" then d else pySet d "tools" (.arr [])
      match pyGetD d "tools" .null with
      | .arr elems => do
          let hit ← anyGoogleSearch elems
          if hit then pure d
          else pure (pySet d "tools" (.arr (elems ++ [.obj [("googleSearch", .obj [])]])))
      | _ => .error "TypeError: tools is not a list"
    else pure d
  pure ⟨.str (Cfg.get_base_model_name model_from_path), d⟩

/-- google_api_client.send_gemini_request: the final envelope posted
upstream, given the builder payload and the resolved project id. -/
def send_envelope (payload : GeminiPayload) (proj_id : String) : PyDict :=
  [("model", payload.model), ("project", .str proj_id), ("request", .obj payload.request)]

/-- An upstream HTTP response as the unary handler sees it. -/
structure HttpUpstreamResponse where
  status : Nat
  text : String
  contentType : Option String

/-- What the gateway hands back to the caller. -/
structure GatewayResponse where
  status : Nat
  content : String
  mediaType : Option String

/-- google_api_client._handle_non_streaming_response. jp is the JSON parse
(json.loads returning none on a decode error). Uncaught Python exceptions
surface as Except errors. -/
def handle_non_streaming (jp : String → Option Json) (resp : HttpUpstreamResponse) :
    Except String GatewayResponse :=
  if resp.status = 200 then
    let t := if strStartsWith resp.text "data: " then strDropN resp.text 6 else resp.text
    match jp t with
    | some (.obj kvs) =>
        .ok ⟨200, dumpsDefault (pyGetD kvs "response" .null),
             some "application/json; charset=utf-8"⟩
    | some _ => .ok ⟨resp.status, resp.text, resp.contentType⟩
    | none => .ok ⟨resp.status, resp.text, resp.contentType⟩
  else
    match jp resp.text with
    | some (.obj kvs) =>
        match pyLookup kvs "error" with
        | some (.obj e) =>
            let msg := pyGetD e "message" (.str ("API error: " ++ toString resp.status))
            .ok ⟨resp.status,
                 dumpsDefault (.obj [("error", .obj [
                   ("message", msg),
                   ("type", .str (if resp.status = 404 then "invalid_request_error"
                                  else "api_error")),
                   ("code", .num resp.status)])]),
                 some "application/json"⟩
        | some _ => .error "AttributeError: no attribute get"
        | none => .ok ⟨resp.status, resp.text, resp.contentType⟩
    | some (.arr l) =>
        if l.any (fun e => match e with | .str s => s = "error" | _ => false) then
          .error "TypeError: list indices must be integers"
        else .ok ⟨resp.status, resp.text, resp.contentType⟩
    | some (.str s) =>
        if strContains s "error" then .error "TypeError: string indices must be integers"
        else .ok ⟨resp.status, resp.text, resp.contentType⟩
    | some _ => .error "TypeError: argument is not iterable"
    | none => .ok ⟨resp.status, resp.text, resp.contentType⟩

/-- What the environment hands one streaming attempt: an HTTP response
(for 200, the SSE lines delivered and, optionally, a transport error
raised after them), or a transport error before any response. -/
inductive UpstreamAttempt where
  | httpResponse (status : Nat) (retryAfter : Option ℚ) (body : String)
      (lines : List String) (drop : Option String)
  | requestError (msg : String)

/-- Error-message extraction for a non-200 streaming status; any failure of
the extraction leaves the default message (the broad except in the
source). -/
def stream_error_message (jp : String → Option Json) (status : Nat) (body : String) : Json :=
  let dflt := Json.str ("Google API error: " ++ toString status)
  if body = "" then dflt
  else match jp body with
    | some (.obj kvs) =>
        match pyLookup kvs "error" with
        | some (.obj e) => pyGetD e "message" dflt
        | _ => dflt
    | _ => dflt

/-- The in-band error event for a non-200 upstream status. -/
def api_error_frame (jp : String → Option Json) (status : Nat) (body : String) : String :=
  "data: " ++ dumpsDefault (.obj [("error", .obj [
    ("message", stream_error_message jp status body),
    ("type", .str (if status = 404 then "invalid_request_error" else "api_error")),
    ("code", .num status)])]) ++ "\n\n"

/-- The in-band error event for a transport failure (httpx.RequestError). -/
def transport_error_frame (m : String) : String :=
  "data: " ++ dumpsDefault (.obj [("error", .obj [
    ("message", .str ("Upstream request failed: " ++ m)),
    ("type", .str "api_error"),
    ("code", .num 502)])]) ++ "\n\n"

/-- The in-band error event of the broad exception handler. -/
def unexpected_error_frame (m : String) : String :=
  "data: " ++ dumpsDefault (.obj [("error", .obj [
    ("message", .str ("An unexpected error occurred: " ++ m)),
    ("type", .str "api_error"),
    ("code", .num 500)])]) ++ "\n\n"

/-- What one SSE line does inside the streaming loop: skipped, re-emitted
(unwrapping a response key), or a raised TypeError from the in-test on a
non-iterable JSON document. -/
inductive LineStep where
  | skip
  | emit (payload : Json)
  | raiseTypeErr (msg : String)

/-- Per-line behaviour of the stream_generator read loop. -/
def stream_line_step (jp : String → Option Json) (line : String) : LineStep :=
  if line = "" then .skip
  else if !(strStartsWith line "data: ") then .skip
  else
    match jp (strDropN line 6) with
    | none => .skip
    | some obj =>
      match obj with
      | .obj kvs =>
          if pyHasKey kvs "response" then .emit (pyGetD kvs "response" .null)
          else .emit obj
      | .arr l =>
          if l.any (fun e => match e with | .str s => s = "response" | _ => false) then
            .raiseTypeErr "list indices must be integers"
          else .emit obj
      | .str s =>
          if strContains s "response" then .raiseTypeErr "string indices must be integers"
          else .emit obj
      | _ => .raiseTypeErr "argument is not iterable"

/-- The read loop over the delivered lines: emitted frames, the started
flag, and the message of a raised TypeError when one aborts the loop. -/
def run_lines (jp : String → Option Json) : List String → Bool →
    (List String × Bool × Option String)
  | [], st => ([], st, none)
  | l :: ls, st =>
    match stream_line_step jp l with
    | .skip => run_lines jp ls st
    | .emit j =>
        let r := run_lines jp ls true
        (("data: " ++ dumpsCompact j ++ "\n\n") :: r.1, r.2.1, r.2.2)
    | .raiseTypeErr m => ([], st, some m)

/-- What one loop iteration of stream_generator does: end the stream with
the frames yielded so far (terminal), or sleep and retry, carrying the
frames yielded this attempt, the started flag, and a replacement for the
last stored exception. -/
inductive AttemptStep where
  | terminal (frames : List String)
  | retry (frames : List String) (started : Bool) (exc : Option String)

/-- One iteration of the stream_generator attempt loop. -/
def stream_attempt (jp : String → Option Json) (cfg : RetryConfig)
    (a : UpstreamAttempt) (attempt : Nat) (started : Bool) : AttemptStep :=
  match a with
  | .requestError m =>
      if started || cfg.max_attempts ≤ attempt then .terminal [transport_error_frame m]
      else .retry [] started (some m)
  | .httpResponse status _ra body lines drop =>
      if status = 200 then
        let r := run_lines jp lines started
        match r.2.2 with
        | some m => .terminal (r.1 ++ [unexpected_error_frame m])
        | none =>
          match drop with
          | none => .terminal r.1
          | some m =>
              if r.2.1 || cfg.max_attempts ≤ attempt then
                .terminal (r.1 ++ [transport_error_frame m])
              else .retry r.1 r.2.1 (some m)
      else
        if status ∈ cfg.retryable_status_codes ∧ attempt < cfg.max_attempts then
          .retry [] started none
        else .terminal [api_error_frame jp status body]

/-- google_api_client._handle_streaming_response.stream_generator over a
script of upstream attempt outcomes, grouped by attempt: element i holds
the frames the generator yielded during attempt i (a trailing in-band
error event is attached to the attempt that raised it). An exhausted
script ends the list early. -/
def stream_groups (jp : String → Option Json) (cfg : RetryConfig) :
    List UpstreamAttempt → Nat → Bool → Option String → List (List String)
  | [] => fun attempt _started lastExc =>
    if cfg.max_attempts < attempt then
      match lastExc with
      | some m => [[transport_error_frame m]]
      | none => [[unexpected_error_frame "Streaming request exhausted without response"]]
    else []
  | a :: rest => fun attempt started lastExc =>
    if cfg.max_attempts < attempt then
      match lastExc with
      | some m => [[transport_error_frame m]]
      | none => [[unexpected_error_frame "Streaming request exhausted without response"]]
    else
      match stream_attempt jp cfg a attempt started with
      | .terminal fs => [fs]
      | .retry fs st2 exc =>
          fs :: stream_groups jp cfg rest (attempt + 1) st2
            (match exc with | some m => some m | none => lastExc)

/-- Frames yielded downstream over the whole streaming call. -/
def stream_emitted (jp : String → Option Json) (cfg : RetryConfig)
    (script : List UpstreamAttempt) : List String :=
  (stream_groups jp cfg script 1 false none).foldr (· ++ ·) []

namespace Transformers

/-- Match of the markdown-image regex at the head of the character list:
bang, bracketed alt text without closing brackets, then a parenthesized
nonempty URI without closing parens. Returns the URI group and the length
of the whole match. -/
def matchImageAt : List Char → Option (List Char × Nat)
  | '!' :: '[' :: rest =>
      let alt := rest.takeWhile (fun c => c ≠ ']')
      match rest.drop alt.length with
      | ']' :: '(' :: rest2 =>
          let url := rest2.takeWhile (fun c => c ≠ ')')
          if url.isEmpty then none
          else
            match rest2.drop url.length with
            | ')' :: _ => some (url, 2 + alt.length + 2 + url.length + 1)
            | _ => none
      | _ => none
  | _ => none

/-- A scanner token: a plain character, or a regex match with its URI group
and matched text. -/
inductive MdToken where
  | chr (c : Char)
  | img (url : List Char) (matched : List Char)

/-- re.finditer behaviour: leftmost non-overlapping matches, advancing one
character when the pattern fails at a position. Fuel bounds recursion by
the input length. -/
def scanMd : Nat → List Char → List MdToken
  | 0, _ => []
  | _, [] => []
  | fuel + 1, c :: rest =>
      match matchImageAt (c :: rest) with
      | some (url, len) =>
          .img url ((c :: rest).take len) :: scanMd fuel ((c :: rest).drop len)
      | none => .chr c :: scanMd fuel rest

/-- The token stream of a text. -/
def scanTokens (cs : List Char) : List MdToken := scanMd cs.length cs

/-- Python str.strip() whitespace class (ASCII part). -/
def isPySpace (c : Char) : Bool :=
  c = ' ' || c = '\t' || c = '\n' || c = '\r' || c.toNat = 11 || c.toNat = 12

/-- Strip characters satisfying p from both ends. -/
def stripBy (p : Char → Bool) (cs : List Char) : List Char :=
  ((cs.dropWhile p).reverse.dropWhile p).reverse

/-- url.strip().strip(double quote).strip(single quote) from the source. -/
def stripUrl (cs : List Char) : List Char :=
  stripBy (fun c => c = '\'') (stripBy (fun c => c = '"') (stripBy isPySpace cs))

/-- Split at the first occurrence of a character, Python split(c, 1) when a
separator exists. -/
def splitOnFirst (sep : Char) : List Char → Option (List Char × List Char)
  | [] => none
  | c :: rest =>
      if c = sep then some ([], rest)
      else (splitOnFirst sep rest).map (fun p => (c :: p.1, p.2))

/-- transformers._parse_data_uri. -/
def parse_data_uri (url : String) : Option Json :=
  if !(strStartsWith url "data:") then none
  else
    match splitOnFirst ',' url.data with
    | none => none
    | some (header, base64_data) =>
        let mime_type :=
          if strContains (String.mk header) ":" then
            match splitOnFirst ':' header with
            | some (_, afterColon) =>
                match splitOnFirst ';' afterColon with
                | some (m, _) => String.mk m
                | none => String.mk afterColon
            | none => ""
          else ""
        if strStartsWith mime_type "image/" then
          some (.obj [("inlineData", .obj [
            ("mimeType", .str mime_type),
            ("data", .str (String.mk base64_data))])])
        else none

/-- A plain text part. -/
def textPart (cs : List Char) : Json := .obj [("text", .str (String.mk cs))]

/-- The part-building loop of _extract_images_from_text: pending text is
flushed before each match, a data-URI match becomes inlineData, any other
match stays as its matched text, and a nonempty tail is flushed at the
end. -/
def buildParts : List MdToken → List Char → List Json
  | [], pending => if pending.isEmpty then [] else [textPart pending]
  | .chr c :: rest, pending => buildParts rest (pending ++ [c])
  | .img url matched :: rest, pending =>
      let pre := if pending.isEmpty then [] else [textPart pending]
      let part :=
        match parse_data_uri (String.mk (stripUrl url)) with
        | some p => p
        | none => textPart matched
      pre ++ part :: buildParts rest []

/-- transformers._extract_images_from_text. -/
def extract_images_from_text (text : String) : List Json :=
  if text = "" then [.obj [("text", .str "")]]
  else
    let ps := buildParts (scanTokens text.data) []
    if ps.isEmpty then [.obj [("text", .str text)]] else ps

/-- Message content per the pydantic schema: a string or a list of dicts. -/
inductive MsgContent where
  | ofString (s : String)
  | ofParts (l : List PyDict)

/-- One entry of the multi-part content loop; Python exceptions surface as
errors. -/
def processPart (part : PyDict) : Except String (List Json) :=
  match pyLookup part "type" with
  | some (.str "text") => do
      let tv ←
        (match pyGetD part "text" (.str "") with
         | .str s => Except.ok s
         | j => if pyTruthy j then Except.error "TypeError: expected str"
                else Except.ok "")
      .ok (extract_images_from_text tv)
  | some (.str "image_url") =>
      (match pyGetD part "image_url" (.obj []) with
       | .obj kvs =>
          let urlJ := pyGetD kvs "url" .null
          if pyTruthy urlJ then
            match urlJ with
            | .str image_url =>
                -- mime_type, base64_part = image_url.split(";") — exactly two
                -- pieces or the ValueError is swallowed by continue
                (match image_url.data.splitOn ';' with
                 | [mimePart, base64_part] =>
                    (match mimePart.splitOn ':' with
                     | [_, mime_type] =>
                        (match base64_part.splitOn ',' with
                         | [_, base64_data] =>
                            .ok [.obj [("inlineData", .obj [
                              ("mimeType", .str (String.mk mime_type)),
                              ("data", .str (String.mk base64_data))])]]
                         | _ => .ok [])
                     | _ => .ok [])
                 | _ => .ok [])
            | _ => .error "AttributeError: split"
          else .ok []
       | _ => .error "AttributeError: no attribute get")
  | _ => .ok []

/-- transformers._process_message_content. -/
def process_message_content : MsgContent → Except String (List Json)
  | .ofString s => .ok (extract_images_from_text s)
  | .ofParts l => do
      let pss ← l.mapM processPart
      pure pss.flatten

/-- An OpenAI chat message per schemas/openai.ChatMessage. -/
structure ChatMessage where
  role : String
  content : MsgContent

/-- schemas/openai.ChatCompletionRequest, the fields the transformer reads. -/
structure ChatCompletionRequest where
  model : String
  messages : List ChatMessage
  stream : Bool := false
  temperature : Option ℚ := none
  top_p : Option ℚ := none
  max_tokens : Option Int := none
  stop : Option (String ⊕ List String) := none
  frequency_penalty : Option ℚ := none
  presence_penalty : Option ℚ := none
  n : Option Int := none
  seed : Option Int := none
  response_format : Option PyDict := none
  reasoning_effort : Option String := none

/-- First matching entry of an effort-budget table, keyed by a default
marker or a substring of the base model. -/
def pickBudget (base_model : String) : List (String × Int) → Option Int
  | [] => none
  | (k, v) :: rest =>
      if k = "default" || strContains base_model k then some v
      else pickBudget base_model rest

/-- transformers._build_thinking_config. -/
def build_thinking_config (model : String) (reasoning_effort : Option String) :
    Option PyDict :=
  if strContains model "gemini-2.5-flash-image" then none
  else
    let effTruthy := match reasoning_effort with | some e => e != "" | none => false
    let thinking_budget : Option Int :=
      if Cfg.is_nothinking_model model || Cfg.is_maxthinking_model model then
        some (MHelpers.get_thinking_budget model)
      else if effTruthy then
        let base_model := Cfg.get_base_model_name model
        let eff := reasoning_effort.getD ""
        if eff = "minimal" then
          pickBudget base_model
            [("gemini-2.5-flash", 0), ("gemini-2.5-pro", 128), ("gemini-3-pro", 128)]
        else if eff = "low" then pickBudget base_model [("default", 1000)]
        else if eff = "medium" then pickBudget base_model [("default", -1)]
        else if eff = "high" then
          pickBudget base_model
            [("gemini-2.5-flash", 24576), ("gemini-2.5-pro", 32768), ("gemini-3-pro", 45000)]
        else none
      else some (MHelpers.get_thinking_budget model)
    match thinking_budget with
    | some tb =>
        some [("thinkingBudget", .num tb),
              ("includeThoughts", .bool (Cfg.should_include_thoughts model))]
    | none => none

/-- The role rewriting of the message loop: assistant becomes model, system
becomes user, anything else passes through. -/
def mapRole (role : String) : String :=
  if role = "assistant" then "model"
  else if role = "system" then "user"
  else role

/-- transformers.openai_request_to_gemini. -/
def openai_request_to_gemini (r : ChatCompletionRequest) : Except String PyDict := do
  let contents ← r.messages.mapM (fun message => do
      let parts ← process_message_content message.content
      pure (Json.obj [("role", .str (mapRole message.role)), ("parts", .arr parts)]))
  let generation_config : PyDict :=
    (match r.temperature with | some v => [("temperature", Json.num v)] | none => []) ++
    (match r.top_p with | some v => [("topP", Json.num v)] | none => []) ++
    (match r.max_tokens with | some v => [("maxOutputTokens", Json.num v)] | none => []) ++
    (match r.stop with
     | some (.inl s) => [("stopSequences", Json.arr [.str s])]
     | some (.inr l) => [("stopSequences", Json.arr (l.map .str))]
     | none => []) ++
    (match r.frequency_penalty with
     | some v => [("frequencyPenalty", Json.num v)] | none => []) ++
    (match r.presence_penalty with
     | some v => [("presencePenalty", Json.num v)] | none => []) ++
    (match r.n with | some v => [("candidateCount", Json.num v)] | none => []) ++
    (match r.seed with | some v => [("seed", Json.num v)] | none => []) ++
    (match r.response_format with
     | some rf =>
        if !rf.isEmpty then
          match pyLookup rf "type" with
          | some (.str "json_object") => [("responseMimeType", Json.str "application/json")]
          | _ => []
        else []
     | none => [])
  let request_payload : PyDict := [
    ("contents", .arr contents),
    ("generationConfig", .obj generation_config),
    ("safetySettings", DEFAULT_SAFETY_SETTINGS),
    ("model", .str (Cfg.get_base_model_name r.model))]
  let request_payload :=
    if Cfg.is_search_model r.model then
      pySet request_payload "tools" (.arr [.obj [("googleSearch", .obj [])]])
    else request_payload
  let request_payload :=
    match build_thinking_config r.model r.reasoning_effort with
    | some tc =>
        pySet request_payload "generationConfig"
          (.obj (pySet generation_config "thinkingConfig" (.obj tc)))
    | none => request_payload
  pure request_payload

end Transformers

/-- A Python datetime restricted to what auth.py handles: a wall-clock
reading plus a flag for an attached UTC timezone. -/
structure PyDateTime where
  year : Nat
  month : Nat
  day : Nat
  hour : Nat
  minute : Nat
  second : Nat
  micro : Nat
  aware : Bool
deriving DecidableEq, Repr

/-- Two-digit zero padding. -/
def pad2 (n : Nat) : String := if n < 10 then "0" ++ toString n else toString n

/-- Four-digit zero padding as %Y renders years below 10000. -/
def pad4 (n : Nat) : String :=
  if n < 10 then "000" ++ toString n
  else if n < 100 then "00" ++ toString n
  else if n < 1000 then "0" ++ toString n
  else toString n

/-- Six-digit zero padding for microseconds. -/
def pad6 (n : Nat) : String :=
  let s := toString n
  String.mk (List.replicate (6 - s.length) '0') ++ s

/-- datetime.isoformat(): microseconds only when nonzero, a +00:00 offset
only when tz-aware. -/
def pyIsoformat (dt : PyDateTime) : String :=
  pad4 dt.year ++ "-" ++ pad2 dt.month ++ "-" ++ pad2 dt.day ++ "T" ++
  pad2 dt.hour ++ ":" ++ pad2 dt.minute ++ ":" ++ pad2 dt.second ++
  (if dt.micro ≠ 0 then "." ++ pad6 dt.micro else "") ++
  (if dt.aware then "+00:00" else "")

/-- auth.save_credentials expiry handling: naive expiries get the UTC
timezone attached, then isoformat is written. -/
def saved_expiry_string (expiry : PyDateTime) : String :=
  pyIsoformat { expiry with aware := true }

/-- Gregorian leap year. -/
def isLeapYear (y : Nat) : Bool := y % 4 = 0 && (y % 100 ≠ 0 || y % 400 = 0)

/-- Days in a month. -/
def daysInMonth (y m : Nat) : Nat :=
  if m = 2 then (if isLeapYear y then 29 else 28)
  else if m = 4 || m = 6 || m = 9 || m = 11 then 30
  else 31

/-- Days from the civil epoch 1970-01-01 (standard era-based algorithm,
floor division throughout). -/
def days_from_civil (y m d : Int) : Int :=
  let y := y - (if m ≤ 2 then 1 else 0)
  let era := Int.fdiv y 400
  let yoe := y - era * 400
  let doy := Int.fdiv (153 * (m + (if 2 < m then -3 else 9)) + 2) 5 + d - 1
  let doe := yoe * 365 + Int.fdiv yoe 4 - Int.fdiv yoe 100 + doy
  era * 146097 + doe - 719468

/-- Inverse of days_from_civil. -/
def civil_from_days (z : Int) : Int × Int × Int :=
  let z := z + 719468
  let era := Int.fdiv z 146097
  let doe := z - era * 146097
  let yoe := Int.fdiv (doe - Int.fdiv doe 1460 + Int.fdiv doe 36524 - Int.fdiv doe 146096) 365
  let y := yoe + era * 400
  let doy := doe - (365 * yoe + Int.fdiv yoe 4 - Int.fdiv yoe 100)
  let mp := Int.fdiv (5 * doy + 2) 153
  let d := doy - Int.fdiv (153 * mp + 2) 5 + 1
  let m := mp + (if mp < 10 then 3 else -9)
  (y + (if m ≤ 2 then 1 else 0), m, d)

/-- datetime.timestamp() whole seconds for a wall reading taken as UTC. -/
def dtToEpoch (dt : PyDateTime) : Int :=
  days_from_civil dt.year dt.month dt.day * 86400 +
    dt.hour * 3600 + dt.minute * 60 + dt.second

/-- datetime.utcfromtimestamp: naive UTC wall reading of an epoch second
count, carrying the fractional part as microseconds. -/
def utcFromEpoch (ts : Int) (micro : Nat) : PyDateTime :=
  let days := Int.fdiv ts 86400
  let rem := (ts - days * 86400).toNat
  let c := civil_from_days days
  ⟨c.1.toNat, c.2.1.toNat, c.2.2.toNat, rem / 3600, rem / 60 % 60, rem % 60, micro, false⟩

/-- Reads exactly n decimal digits. -/
def parseDigits : Nat → List Char → Option (Nat × List Char)
  | 0, cs => some (0, cs)
  | n + 1, c :: cs =>
      if c.isDigit then
        (parseDigits n cs).map (fun p => (p.1 + (c.toNat - 48) * 10 ^ n, p.2))
      else none
  | _ + 1, [] => none

/-- Reads 1 to 6 fractional-second digits and scales to microseconds. -/
def parseFraction (cs : List Char) : Option (Nat × List Char) :=
  let digits := cs.takeWhile (fun c => c.isDigit)
  if digits.isEmpty || 6 < digits.length then none
  else
    let v := digits.foldl (fun acc c => acc * 10 + (c.toNat - 48)) 0
    some (v * 10 ^ (6 - digits.length), cs.drop digits.length)

/-- The naive core of datetime.fromisoformat restricted to the date and
optional T-separated time grammar auth.py round-trips; field ranges are
validated as Python does. -/
def fromIsoWall (cs : List Char) : Option PyDateTime := do
  let (y, cs) ← parseDigits 4 cs
  let cs ← match cs with | '-' :: r => some r | _ => none
  let (mo, cs) ← parseDigits 2 cs
  let cs ← match cs with | '-' :: r => some r | _ => none
  let (d, cs) ← parseDigits 2 cs
  let (h, mi, s, us) ←
    match cs with
    | [] => some (0, 0, 0, 0)
    | sep :: r =>
        if sep = 'T' || sep = ' ' then do
          let (h, r) ← parseDigits 2 r
          let r ← match r with | ':' :: r2 => some r2 | _ => none
          let (mi, r) ← parseDigits 2 r
          let r ← match r with | ':' :: r2 => some r2 | _ => none
          let (s, r) ← parseDigits 2 r
          match r with
          | [] => some (h, mi, s, 0)
          | '.' :: r2 => do
              let (us, r3) ← parseFraction r2
              match r3 with
              | [] => some (h, mi, s, us)
              | _ => none
          | _ => none
        else none
  if 1 ≤ mo && mo ≤ 12 && 1 ≤ d && d ≤ daysInMonth y mo && h < 24 && mi < 60 &&
      s < 60 && 1 ≤ y && y ≤ 9999 then
    some ⟨y, mo, d, h, mi, s, us, false⟩
  else none

/-- datetime.fromisoformat restricted to naive strings and strings with a
+00:00 offset (the only offset auth.py produces or rewrites to). -/
def fromIsoFormat (s : String) : Option PyDateTime :=
  if strEndsWith s "+00:00" then
    (fromIsoWall (strDropLast s 6).data).map (fun dt => { dt with aware := true })
  else fromIsoWall s.data

/-- str.replace replacing every occurrence, by fuel-bounded scanning. -/
def replaceAllChars : Nat → List Char → List Char → List Char → List Char
  | 0, cs, _, _ => cs
  | _ + 1, [], _, _ => []
  | fuel + 1, c :: cs, pat, rep =>
      if listStartsWith pat (c :: cs) && !pat.isEmpty then
        rep ++ replaceAllChars fuel ((c :: cs).drop pat.length) pat rep
      else c :: replaceAllChars fuel cs pat rep

/-- Python str.replace. -/
def strReplaceAll (s pat rep : String) : String :=
  String.mk (replaceAllChars s.data.length s.data pat.data rep.data)

/-- Modelled from the spec: the ISO_DATE_FORMAT constant auth.py imports is
from a config module missing from the provided sources; the spec gives the
canonical save format YYYY-MM-DDTHH:MM:SSZ. -/
def strftimeISO (dt : PyDateTime) : String :=
  pad4 dt.year ++ "-" ++ pad2 dt.month ++ "-" ++ pad2 dt.day ++ "T" ++
  pad2 dt.hour ++ ":" ++ pad2 dt.minute ++ ":" ++ pad2 dt.second ++ "Z"

/-- auth._parse_expiry. localOff is the seconds-east-of-UTC offset Python
uses when interpreting a naive reading as local time; the deployment the
spec describes runs at UTC (localOff = 0). -/
def parse_expiry (localOff : Int) (expiry_str : String) : Option String :=
  let parsed :=
    if strContains expiry_str "+00:00" then fromIsoFormat expiry_str
    else if strEndsWith expiry_str "Z" then
      fromIsoFormat (strReplaceAll expiry_str "Z" "+00:00")
    else fromIsoFormat expiry_str
  match parsed with
  | none => none
  | some dt =>
      let ts := if dt.aware then dtToEpoch dt else dtToEpoch dt - localOff
      some (strftimeISO (utcFromEpoch ts dt.micro))

/-- The canonical shape YYYY-MM-DDTHH:MM:SSZ. -/
def isCanonicalZExpiry (s : String) : Bool :=
  match s.data with
  | [y1, y2, y3, y4, '-', m1, m2, '-', d1, d2, 'T',
     h1, h2, ':', n1, n2, ':', s1, s2, 'Z'] =>
      y1.isDigit && y2.isDigit && y3.isDigit && y4.isDigit &&
      m1.isDigit && m2.isDigit && d1.isDigit && d2.isDigit &&
      h1.isDigit && h2.isDigit && n1.isDigit && n2.isDigit &&
      s1.isDigit && s2.isDigit
  | _ => false

/-- Waits recorded by the retry loop that carry a Retry-After value are at
least min(max_delay, retry_after). -/
theorem post_retry_waits_bound (cfg : RetryConfig) (r : Nat → ℚ)
    (script : List UnaryOutcome) :
    ∀ (attempt : Nat) (lastExc : Option String) (p : Option ℚ × ℚ),
      p ∈ (post_with_retry_go cfg r script attempt lastExc).waits →
      ∀ x : ℚ, p.1 = some x → min cfg.max_delay_s x ≤ p.2 := by
  induction script with
  | nil =>
      intro attempt lastExc p hp x hx
      unfold post_with_retry_go at hp
      split at hp
      · split at hp <;> simp at hp
      · simp at hp
  | cons o rest ih =>
      intro attempt lastExc p hp x hx
      unfold post_with_retry_go at hp
      split at hp
      · split at hp <;> simp at hp
      · match o with
        | .resp status ra =>
            simp only at hp
            split at hp
            · simp only [List.mem_cons] at hp
              rcases hp with hp | hp
              · subst hp
                simp only at hx
                subst hx
                simp only [sleep_delay_s]
                exact le_max_right _ _
              · exact ih _ _ _ hp x hx
            · simp at hp
        | .exc retryable m =>
            simp only at hp
            split at hp
            · split at hp
              · simp at hp
              · simp only [List.mem_cons] at hp
                rcases hp with hp | hp
                · subst hp; simp at hx
                · exact ih _ _ _ hp x hx
            · simp at hp

/-- C5: for every retried upstream attempt whose triggering response carried
a Retry-After value, the wait before the next attempt is at least
min(MAX_DELAY, Retry-After): the slept delay is raised to that bound, and
every wait the post_with_retry loop records with a Retry-After obeys it. -/
theorem c5_retry_after_wait_lower_bound :
    (∀ (attempt : Nat) (cfg : RetryConfig) (ra r : ℚ),
        min cfg.max_delay_s ra ≤ sleep_delay_s attempt cfg (some ra) r) ∧
    (∀ (cfg : RetryConfig) (r : Nat → ℚ) (script : List UnaryOutcome)
        (p : Option ℚ × ℚ),
        p ∈ (post_with_retry cfg r script).waits →
        ∀ x : ℚ, p.1 = some x → min cfg.max_delay_s x ≤ p.2) := by
  constructor
  · intro attempt cfg ra r
    simp only [sleep_delay_s]
    exact le_max_right _ _
  · intro cfg r script p hp x hx
    exact post_retry_waits_bound cfg r script 1 none p hp x hx

/-- Concrete run for the C5 theorem: a 429 carrying Retry-After 2 followed
by a 200, with zero jitter draws; the single recorded wait is 2 seconds
and satisfies the bound. -/
theorem c5_witness :
    (some (2:ℚ), (2:ℚ)) ∈
      (post_with_retry ⟨10, 1, 30, [429, 500, 502, 503, 504]⟩ (fun _ => 0)
        [.resp 429 (some 2), .resp 200 none]).waits ∧
    min (30:ℚ) 2 ≤ 2 := by
  have hmem : (some (2:ℚ), (2:ℚ)) ∈
      (post_with_retry ⟨10, 1, 30, [429, 500, 502, 503, 504]⟩ (fun _ => 0)
        [.resp 429 (some 2), .resp 200 none]).waits := by
    simp [post_with_retry, post_with_retry_go, sleep_delay_s, compute_backoff_s]
    norm_num
  exact ⟨hmem,
    c5_retry_after_wait_lower_bound.2 ⟨10, 1, 30, [429, 500, 502, 503, 504]⟩
      (fun _ => 0) [.resp 429 (some 2), .resp 200 none] (some 2, 2) hmem 2 rfl⟩

/-- If every binding of a key in a dict is null, the null-filtered dict has
no binding for it. -/
theorem pyLookup_filter_none (l : PyDict) (k : String)
    (h : ∀ v, (k, v) ∈ l → v.isNull = true) :
    pyLookup (l.filter fun kv => !kv.2.isNull) k = none := by
  induction l with
  | nil => rfl
  | cons kv rest ih =>
      obtain ⟨k₁, v₁⟩ := kv
      by_cases hk : k₁ = k
      · subst hk
        have hv : v₁.isNull = true := h v₁ (List.mem_cons_self _ _)
        simp only [List.filter_cons, hv]
        exact ih fun v hv₂ => h v (List.mem_cons_of_mem _ hv₂)
      · simp only [List.filter_cons]
        split
        · simp only [pyLookup, hk, if_neg hk]
          exact ih fun v hv₂ => h v (List.mem_cons_of_mem _ hv₂)
        · exact ih fun v hv₂ => h v (List.mem_cons_of_mem _ hv₂)

/-- C10: the request body built from an OpenAI-path payload holds no
null-valued key; safetySettings falls back to the permissive default set
and generationConfig to the empty object when the payload lacks them, and
the optional passthrough fields are omitted when absent. -/
theorem c10_openai_request_no_nulls (p : PyDict) :
    (∀ kv ∈ (build_gemini_payload_from_openai p).request, kv.2.isNull = false) ∧
    (pyLookup p "safetySettings" = none →
      ("safetySettings", DEFAULT_SAFETY_SETTINGS) ∈
        (build_gemini_payload_from_openai p).request) ∧
    (pyLookup p "generationConfig" = none →
      ("generationConfig", Json.obj []) ∈ (build_gemini_payload_from_openai p).request) ∧
    (∀ k ∈ (["contents", "systemInstruction", "cachedContent", "tools",
             "toolConfig"] : List String),
      pyLookup p k = none →
      pyLookup (build_gemini_payload_from_openai p).request k = none) := by
  refine ⟨?_, ?_, ?_, ?_⟩
  · intro kv hkv
    have h := List.mem_filter.mp hkv
    simpa using h.2
  · intro h
    apply List.mem_filter.mpr
    refine ⟨?_, rfl⟩
    simp [build_gemini_payload_from_openai, pyGetD, h]
  · intro h
    apply List.mem_filter.mpr
    refine ⟨?_, rfl⟩
    simp [build_gemini_payload_from_openai, pyGetD, h]
  · intro k hk h
    apply pyLookup_filter_none
    intro v hv
    simp only [build_gemini_payload_from_openai, List.mem_cons, Prod.mk.injEq,
      List.mem_singleton, List.not_mem_nil, or_false] at hv
    fin_cases hk <;>
      · rcases hv with ⟨hk₁, hv₁⟩ | ⟨hk₁, hv₁⟩ | ⟨hk₁, hv₁⟩ | ⟨hk₁, hv₁⟩ |
          ⟨hk₁, hv₁⟩ | ⟨hk₁, hv₁⟩ | ⟨hk₁, hv₁⟩ <;>
          first
          | (exact absurd hk₁ (by decide))
          | (subst hv₁; simp [pyGetD, h, Json.isNull])

/-- Concrete instance of the C10 theorem on a minimal OpenAI payload. -/
theorem c10_witness :
    (("safetySettings", DEFAULT_SAFETY_SETTINGS) ∈
      (build_gemini_payload_from_openai [("model", Json.str "gemini-2.5-pro")]).request) ∧
    (("generationConfig", Json.obj []) ∈
      (build_gemini_payload_from_openai [("model", Json.str "gemini-2.5-pro")]).request) ∧
    pyLookup (build_gemini_payload_from_openai
      [("model", Json.str "gemini-2.5-pro")]).request "contents" = none :=
  ⟨(c10_openai_request_no_nulls _).2.1 rfl,
   (c10_openai_request_no_nulls _).2.2.1 rfl,
   (c10_openai_request_no_nulls _).2.2.2 "contents" (by simp) rfl⟩

/-- Looking up the key just assigned. -/
theorem pyLookup_pySet_same (d : PyDict) (k : String) (v : Json) :
    pyLookup (pySet d k v) k = some v := by
  induction d with
  | nil => simp [pySet, pyLookup]
  | cons kv rest ih =>
      obtain ⟨k₁, v₁⟩ := kv
      by_cases hk : k₁ = k
      · subst hk; simp [pySet, pyLookup]
      · simp [pySet, pyLookup, hk, ih]

/-- Assignment leaves other keys untouched. -/
theorem pyLookup_pySet_other (d : PyDict) (k : String) (v : Json) (k₂ : String)
    (h : k₂ ≠ k) : pyLookup (pySet d k v) k₂ = pyLookup d k₂ := by
  have hne : k ≠ k₂ := fun hh => h hh.symm
  induction d with
  | nil => simp [pySet, pyLookup, hne]
  | cons kv rest ih =>
      obtain ⟨k₁, v₁⟩ := kv
      by_cases hk : k₁ = k
      · subst hk
        simp [pySet, pyLookup, hne]
      · simp [pySet, pyLookup, hk, ih]

/-- C1 counterexample: for the maxthinking flash variant the translator sets
includeThoughts to true, not false as the claim states (model name and
thinkingBudget do match the claim). -/
theorem c1_counterexample :
    ((build_gemini_payload_from_native [] "gemini-2.5-flash-maxthinking").map
        (fun p => (p.model, pyLookup p.request "generationConfig")) =
      .ok (Json.str "gemini-2.5-flash",
        some (.obj [("thinkingConfig",
          .obj [("includeThoughts", .bool true), ("thinkingBudget", .num 24576)])]))) ∧
    ((build_gemini_payload_from_native [] "gemini-2.5-flash-maxthinking").map
        (fun p => (p.model, pyLookup p.request "generationConfig")) ≠
      .ok (Json.str "gemini-2.5-flash",
        some (.obj [("thinkingConfig",
          .obj [("includeThoughts", .bool false), ("thinkingBudget", .num 24576)])]))) := by
  have hEq : (build_gemini_payload_from_native [] "gemini-2.5-flash-maxthinking").map
        (fun p => (p.model, pyLookup p.request "generationConfig")) =
      .ok (Json.str "gemini-2.5-flash",
        some (.obj [("thinkingConfig",
          .obj [("includeThoughts", .bool true), ("thinkingBudget", .num 24576)])])) := by
    have hImg : strContains "gemini-2.5-flash-maxthinking" "gemini-2.5-flash-image" = false := rfl
    have hSearch : Cfg.is_search_model "gemini-2.5-flash-maxthinking" = false := rfl
    have hTB : Cfg.get_thinking_budget "gemini-2.5-flash-maxthinking" = some 24576 := rfl
    have hIT : Cfg.should_include_thoughts "gemini-2.5-flash-maxthinking" = true := rfl
    have hBase : Cfg.get_base_model_name "gemini-2.5-flash-maxthinking" = "gemini-2.5-flash" := rfl
    simp [build_gemini_payload_from_native, pyHasKey, pyGetD,
      pyLookup_pySet_same, pyInJ, pySetItemJ, pyGetItemJ, pyLookup, Bind.bind,
      Except.bind, Except.map, Pure.pure, Except.pure, pySet,
      pyLookup_pySet_other, hImg, hSearch, hTB, hIT, hBase]
  refine ⟨hEq, fun hBad => ?_⟩
  rw [hEq] at hBad
  simp at hBad

/-- C1 amended: for a native request on gemini-2.5-flash-maxthinking whose
body carries no generationConfig of its own, the upstream envelope has
model gemini-2.5-flash and thinkingConfig with thinkingBudget 24576 and
includeThoughts true. -/
theorem c1_maxthinking_flash_envelope (req : PyDict)
    (h : pyLookup req "generationConfig" = none) :
    (build_gemini_payload_from_native req "gemini-2.5-flash-maxthinking").map
      (fun p => (p.model, pyLookup p.request "generationConfig")) =
    .ok (Json.str "gemini-2.5-flash",
      some (.obj [("thinkingConfig",
        .obj [("includeThoughts", .bool true), ("thinkingBudget", .num 24576)])])) := by
  have h1 : pyLookup (pySet req "safetySettings" DEFAULT_SAFETY_SETTINGS) "generationConfig"
      = none := by
    rw [pyLookup_pySet_other _ _ _ _ (by decide)]; exact h
  have hImg : strContains "gemini-2.5-flash-maxthinking" "gemini-2.5-flash-image" = false := rfl
  have hSearch : Cfg.is_search_model "gemini-2.5-flash-maxthinking" = false := rfl
  have hTB : Cfg.get_thinking_budget "gemini-2.5-flash-maxthinking" = some 24576 := rfl
  have hIT : Cfg.should_include_thoughts "gemini-2.5-flash-maxthinking" = true := rfl
  have hBase : Cfg.get_base_model_name "gemini-2.5-flash-maxthinking" = "gemini-2.5-flash" := rfl
  simp [build_gemini_payload_from_native, pyHasKey, h1, pyGetD,
    pyLookup_pySet_same, pyInJ, pySetItemJ, pyGetItemJ,
    hImg, hSearch, hTB, hIT, hBase, pyLookup, Bind.bind, Except.bind,
    Except.map, Pure.pure, Except.pure, pySet]

/-- Concrete instance of the C1 amended theorem on a body with one contents
field and no generationConfig. -/
theorem c1_witness :
    (build_gemini_payload_from_native [("contents", Json.arr [])]
        "gemini-2.5-flash-maxthinking").map
      (fun p => (p.model, pyLookup p.request "generationConfig")) =
    .ok (Json.str "gemini-2.5-flash",
      some (.obj [("thinkingConfig",
        .obj [("includeThoughts", .bool true), ("thinkingBudget", .num 24576)])])) :=
  c1_maxthinking_flash_envelope [("contents", Json.arr [])] rfl

/-- Every successful native build carries the one-pass base model name. -/
theorem build_native_model_eq (req : PyDict) (name : String) (p : GeminiPayload)
    (h : build_gemini_payload_from_native req name = .ok p) :
    p.model = .str (Cfg.get_base_model_name name) := by
  unfold build_gemini_payload_from_native at h
  simp only [Bind.bind, Except.bind, Pure.pure, Except.pure] at h
  repeat' split at h
  all_goals
    first
    | exact Except.noConfusion h
    | (injection h with h; subst h; rfl)

/-- Every catalog name still satisfies the claim after one-pass stripping:
no variant marker remains in its base name. -/
theorem supported_base_names_clean :
    supportedModelNames.all (fun n =>
      !(strContains (Cfg.get_base_model_name n) "-search") &&
      !(strContains (Cfg.get_base_model_name n) "-nothinking") &&
      !(strContains (Cfg.get_base_model_name n) "-maxthinking")) = true := by decide

/-- C2 counterexample: a model name stacking two variant suffixes keeps the
inner -search marker in the upstream model field, so the envelope model is
not suffix-free for every request. -/
theorem c2_counterexample :
    ((build_gemini_payload_from_native [] "gemini-2.5-pro-search-maxthinking").map
        (fun p => p.model) = .ok (Json.str "gemini-2.5-pro-search")) ∧
    strContains "gemini-2.5-pro-search" "-search" = true ∧
    strEndsWith "gemini-2.5-pro-search" "-search" = true := by
  refine ⟨?_, rfl, rfl⟩
  rfl

/-- C2 amended: the upstream envelope is always the triple of the builder
model, the resolved project and the request body; the model equals the
one-pass base name of the requested model; and for every name in the
supported catalog that base name carries no variant suffix. -/
theorem c2_envelope_shape :
    (∀ (payload : GeminiPayload) (proj_id : String),
      pyLookup (send_envelope payload proj_id) "model" = some payload.model ∧
      pyLookup (send_envelope payload proj_id) "project" = some (.str proj_id) ∧
      pyLookup (send_envelope payload proj_id) "request" = some (.obj payload.request)) ∧
    (∀ (req : PyDict) (name : String),
      (build_gemini_payload_from_native req name).map (fun p => p.model) =
        (build_gemini_payload_from_native req name).map
          (fun _ => Json.str (Cfg.get_base_model_name name))) ∧
    (∀ name ∈ supportedModelNames,
      strContains (Cfg.get_base_model_name name) "-search" = false ∧
      strContains (Cfg.get_base_model_name name) "-nothinking" = false ∧
      strContains (Cfg.get_base_model_name name) "-maxthinking" = false) := by
  refine ⟨?_, ?_, ?_⟩
  · intro payload proj_id
    exact ⟨rfl, rfl, rfl⟩
  · intro req name
    cases hb : build_gemini_payload_from_native req name with
    | error e => rfl
    | ok p => simp [Except.map, build_native_model_eq req name p hb]
  · intro name hmem
    have h := List.all_eq_true.mp supported_base_names_clean name hmem
    simp only [Bool.and_eq_true, Bool.not_eq_true'] at h
    exact ⟨h.1.1, h.1.2, h.2⟩

/-- Concrete instance of the C2 theorem: envelope fields for a sample
payload, and the maxthinking flash catalog entry strips to a clean base. -/
theorem c2_witness :
    pyLookup (send_envelope ⟨Json.str "gemini-2.5-flash", []⟩ "proj-7") "project" =
      some (Json.str "proj-7") ∧
    strContains (Cfg.get_base_model_name "models/gemini-2.5-flash-maxthinking")
      "-search" = false ∧
    strContains (Cfg.get_base_model_name "models/gemini-2.5-flash-maxthinking")
      "-maxthinking" = false :=
  ⟨(c2_envelope_shape.1 ⟨Json.str "gemini-2.5-flash", []⟩ "proj-7").2.1,
   (c2_envelope_shape.2.2 "models/gemini-2.5-flash-maxthinking" (by decide)).1,
   (c2_envelope_shape.2.2 "models/gemini-2.5-flash-maxthinking" (by decide)).2.2⟩

/-- Destructuring a successful Except bind. -/
theorem exceptBind_ok {α β : Type} {x : Except String α} {f : α → Except String β} {b : β}
    (h : (x >>= f) = .ok b) : ∃ a, x = .ok a ∧ f a = .ok b := by
  cases x with
  | error e => simp [Bind.bind, Except.bind] at h
  | ok a => exact ⟨a, rfl, by simpa [Bind.bind, Except.bind] using h⟩

/-- The role field of a translated content entry. -/
def roleProj (c : Json) : Json :=
  match c with
  | .obj kvs => pyGetD kvs "role" .null
  | _ => .null

/-- The contents produced by the message loop carry exactly the rewritten
roles of the incoming messages, in order. -/
theorem mapM_contents_roles (msgs : List Transformers.ChatMessage) (cs : List Json)
    (h : msgs.mapM (fun message => do
          let parts ← Transformers.process_message_content message.content
          pure (Json.obj [("role", .str (Transformers.mapRole message.role)),
                          ("parts", .arr parts)])) = Except.ok cs) :
    cs.map roleProj = msgs.map (fun m => Json.str (Transformers.mapRole m.role)) := by
  induction msgs generalizing cs with
  | nil =>
      simp only [List.mapM_nil, Pure.pure, Except.pure, Except.ok.injEq] at h
      subst h
      rfl
  | cons m rest ih =>
      rw [List.mapM_cons] at h
      obtain ⟨c, hc, h⟩ := exceptBind_ok h
      obtain ⟨cs₂, hcs₂, h⟩ := exceptBind_ok h
      obtain ⟨parts, hp, hc⟩ := exceptBind_ok hc
      simp only [Pure.pure, Except.pure, Except.ok.injEq] at h hc
      subst h
      subst hc
      simp [roleProj, pyGetD, pyLookup, ih cs₂ hcs₂]

/-- C3 counterexample: a lone system message produces no systemInstruction
at all; it is sent as a user-role content entry. -/
theorem c3_counterexample :
    (Transformers.openai_request_to_gemini
        { model := "gemini-2.5-pro",
          messages := [⟨"system", .ofString "Be terse."⟩] }).map
      (fun d => (pyLookup d "systemInstruction", pyLookup d "contents")) =
    .ok (none,
      some (.arr [.obj [("role", .str "user"),
                        ("parts", .arr [.obj [("text", .str "Be terse.")]])]])) := by
  rfl

/-- C3 amended: the chat-completions translator emits no systemInstruction;
each message becomes a content entry whose role is the original role with
assistant rewritten to model and system rewritten to user. -/
theorem c3_role_mapping (r : Transformers.ChatCompletionRequest) (d : PyDict)
    (h : Transformers.openai_request_to_gemini r = .ok d) :
    (pyLookup d "systemInstruction" = none ∧
     ∃ cs : List Json,
       pyLookup d "contents" = some (.arr cs) ∧
       cs.map roleProj = r.messages.map (fun m => Json.str (Transformers.mapRole m.role))) ∧
    (Transformers.mapRole "system" = "user" ∧
     Transformers.mapRole "assistant" = "model" ∧
     Transformers.mapRole "user" = "user") := by
  refine ⟨?_, rfl, rfl, rfl⟩
  unfold Transformers.openai_request_to_gemini at h
  obtain ⟨cs, hcs, h⟩ := exceptBind_ok h
  simp only [Pure.pure, Except.pure] at h
  split at h <;> split at h <;>
    (injection h with h; subst h;
     refine ⟨?_, cs, ?_, mapM_contents_roles r.messages cs hcs⟩) <;>
    simp [pyLookup, pySet, pyLookup_pySet_other]

/-- Concrete instance of the C3 theorem on a three-role conversation. -/
theorem c3_witness :
    pyLookup ((Transformers.openai_request_to_gemini
      { model := "gemini-2.5-flash",
        messages := [⟨"system", .ofString "s"⟩, ⟨"user", .ofString "u"⟩,
                     ⟨"assistant", .ofString "a"⟩] }).toOption.getD [])
        "systemInstruction" = none ∧
    Transformers.mapRole "system" = "user" :=
  ⟨(c3_role_mapping
      { model := "gemini-2.5-flash",
        messages := [⟨"system", .ofString "s"⟩, ⟨"user", .ofString "u"⟩,
                     ⟨"assistant", .ofString "a"⟩] }
      ((Transformers.openai_request_to_gemini
        { model := "gemini-2.5-flash",
          messages := [⟨"system", .ofString "s"⟩, ⟨"user", .ofString "u"⟩,
                       ⟨"assistant", .ofString "a"⟩] }).toOption.getD [])
      (by rfl)).1.1,
   (c3_role_mapping
      { model := "gemini-2.5-flash",
        messages := [⟨"system", .ofString "s"⟩, ⟨"user", .ofString "u"⟩,
                     ⟨"assistant", .ofString "a"⟩] }
      ((Transformers.openai_request_to_gemini
        { model := "gemini-2.5-flash",
          messages := [⟨"system", .ofString "s"⟩, ⟨"user", .ofString "u"⟩,
                       ⟨"assistant", .ofString "a"⟩] }).toOption.getD [])
      (by rfl)).2.1⟩

/-- C6 counterexample: a 200 body in the bare candidate form (no response
wrapper) is answered with the JSON text null, not with the candidate
content. -/
theorem c6_counterexample :
    handle_non_streaming
        (fun s => if s = "BARE" then some (.obj [("candidates", Json.arr [])]) else none)
        ⟨200, "BARE", some "application/json"⟩ =
      .ok ⟨200, "null", some "application/json; charset=utf-8"⟩ ∧
    dumpsDefault (.obj [("candidates", Json.arr [])]) ≠ "null" := by
  exact ⟨rfl, by decide⟩

/-- C6 amended: the unary handler accepts the wrapped form, returning the
value under the response key; a parsed object without that key yields the
JSON text null instead of the candidate content. -/
theorem c6_unary_unwrap (jp : String → Option Json) (resp : HttpUpstreamResponse)
    (kvs : List (String × Json)) (h200 : resp.status = 200)
    (hp : jp (if strStartsWith resp.text "data: " then strDropN resp.text 6
              else resp.text) = some (.obj kvs)) :
    (∀ rv, pyLookup kvs "response" = some rv →
       handle_non_streaming jp resp =
         .ok ⟨200, dumpsDefault rv, some "application/json; charset=utf-8"⟩) ∧
    (pyLookup kvs "response" = none →
       handle_non_streaming jp resp =
         .ok ⟨200, "null", some "application/json; charset=utf-8"⟩) := by
  constructor
  · intro rv hrv
    simp [handle_non_streaming, h200, hp, pyGetD, hrv]
  · intro hn
    simp [handle_non_streaming, h200, hp, pyGetD, hn]
    rfl

/-- Concrete instance of the C6 theorem: a wrapped body is unwrapped. -/
theorem c6_witness :
    handle_non_streaming
        (fun s => if s = "W" then some (.obj [("response", Json.str "hi")]) else none)
        ⟨200, "W", none⟩ =
      .ok ⟨200, dumpsDefault (Json.str "hi"), some "application/json; charset=utf-8"⟩ :=
  (c6_unary_unwrap
      (fun s => if s = "W" then some (.obj [("response", Json.str "hi")]) else none)
      ⟨200, "W", none⟩ [("response", Json.str "hi")] rfl rfl).1 (Json.str "hi") rfl

/-- C8 counterexample: the claim's catalog includes -nothinking and
-maxthinking variants of the pro 3 base, but the generated catalog has no
thinking variants for models/gemini-3-pro-preview. -/
theorem c8_counterexample :
    ("models/gemini-3-pro-preview-nothinking" ∈ specClaimCatalogNames) ∧
    ("models/gemini-3-pro-preview-nothinking" ∉ supportedModelNames) ∧
    supportedModelNames ≠ specClaimCatalogNames := by
  exact ⟨by decide, by decide, by decide⟩

/-- C8 amended: the exposed catalog equals the base list plus a -search
variant for every generateContent base except the image-preview base and
-nothinking / -maxthinking variants for the 2.5 flash and 2.5 pro bases
only, sorted by name. -/
theorem c8_supported_models_catalog :
    supportedModelNames = specAmendedCatalogNames ∧
    namesSortedLe supportedModelNames = true := by
  exact ⟨by decide, by decide⟩

/-- A list starts with itself, ignoring any tail. -/
theorem listStartsWith_append_self (p q : List Char) :
    listStartsWith p (p ++ q) = true := by
  induction p with
  | nil => rfl
  | cons c rest ih => simp [listStartsWith, ih]

/-- A pattern occurs in anything that ends with it. -/
theorem subOccursIn_append_self (a p : List Char) :
    subOccursIn p (a ++ p) = true := by
  induction a with
  | nil =>
      cases p with
      | nil => rfl
      | cons c rest =>
          have h := listStartsWith_append_self (c :: rest) []
          rw [List.append_nil] at h
          simp [subOccursIn, h]
  | cons c rest ih =>
      simp [subOccursIn, ih]

/-- strContains holds for an appended suffix pattern. -/
theorem strContains_append_self (a p : String) :
    strContains (a ++ p) p = true := by
  simp [strContains, String.data_append, subOccursIn_append_self]

/-- strEndsWith holds for an appended suffix. -/
theorem strEndsWith_append_self (a p : String) :
    strEndsWith (a ++ p) p = true := by
  simp [strEndsWith, String.data_append, List.reverse_append,
    listStartsWith_append_self]

/-- Dropping an appended suffix by its length restores the prefix. -/
theorem strDropLast_append_self (a p : String) (n : Nat) (hn : p.data.length = n) :
    strDropLast (a ++ p) n = a := by
  subst hn
  simp only [strDropLast, String.data_append, List.length_append,
    Nat.add_sub_cancel, List.take_left]

/-- C9 counterexample: a credential expiry is written via isoformat, which
produces a +00:00 offset form, not the canonical YYYY-MM-DDTHH:MM:SSZ the
claim states. -/
theorem c9_counterexample :
    saved_expiry_string ⟨2025, 1, 1, 0, 0, 0, 0, true⟩ = "2025-01-01T00:00:00+00:00" ∧
    isCanonicalZExpiry "2025-01-01T00:00:00+00:00" = false := by
  exact ⟨rfl, rfl⟩

/-- C9 amended: the saved expiry is the isoformat of the UTC-tagged instant
and so ends in +00:00; canonicalization to the Z form happens on load,
where the +00:00, Z and naive forms of one wall reading are all accepted
and normalize identically; the output is in canonical Z shape. -/
theorem c9_expiry_serialization :
    (∀ e : PyDateTime,
      saved_expiry_string e = pyIsoformat { e with aware := true } ∧
      strEndsWith (saved_expiry_string e) "+00:00" = true) ∧
    (∀ (s : String) (w : PyDateTime),
      strEndsWith s "Z" = false →
      strEndsWith s "+00:00" = false →
      strContains (s ++ "Z") "+00:00" = false →
      strReplaceAll (s ++ "Z") "Z" "+00:00" = s ++ "+00:00" →
      fromIsoWall s.data = some w →
      w.aware = false →
      parse_expiry 0 s = some (strftimeISO (utcFromEpoch (dtToEpoch w) w.micro)) ∧
      parse_expiry 0 (s ++ "Z") = parse_expiry 0 s ∧
      parse_expiry 0 (s ++ "+00:00") = parse_expiry 0 s) ∧
    (parse_expiry 0 "2025-06-01T12:30:45+00:00" = some "2025-06-01T12:30:45Z" ∧
     isCanonicalZExpiry "2025-06-01T12:30:45Z" = true) := by
  refine ⟨?_, ?_, rfl, rfl⟩
  · intro e
    exact ⟨rfl, strEndsWith_append_self _ "+00:00"⟩
  · intro s w hZ hE hC2 hR hW hA
    have hform1 : parse_expiry 0 s =
        some (strftimeISO (utcFromEpoch (dtToEpoch w) w.micro)) := by
      by_cases hc : strContains s "+00:00" = true
      · simp [parse_expiry, hc, fromIsoFormat, hE, hW, hA]
      · simp only [Bool.not_eq_true] at hc
        simp [parse_expiry, hc, hZ, fromIsoFormat, hE, hW, hA]
    refine ⟨hform1, ?_, ?_⟩
    · rw [hform1]
      have hends : strEndsWith (s ++ "Z") "Z" = true := strEndsWith_append_self s "Z"
      have hends6 : strEndsWith (s ++ "+00:00") "+00:00" = true :=
        strEndsWith_append_self s "+00:00"
      have hdrop : strDropLast (s ++ "+00:00") 6 = s :=
        strDropLast_append_self s "+00:00" 6 rfl
      simp [parse_expiry, hC2, hends, hR, fromIsoFormat, hends6, hdrop, hW, hA]
      rfl
    · rw [hform1]
      have hends6 : strEndsWith (s ++ "+00:00") "+00:00" = true :=
        strEndsWith_append_self s "+00:00"
      have hdrop : strDropLast (s ++ "+00:00") 6 = s :=
        strDropLast_append_self s "+00:00" 6 rfl
      have hc3 : strContains (s ++ "+00:00") "+00:00" = true :=
        strContains_append_self s "+00:00"
      simp [parse_expiry, hc3, fromIsoFormat, hends6, hdrop, hW, hA]
      rfl

/-- Concrete instance of the C9 theorem: one wall reading saved and loaded
in all three accepted forms. -/
theorem c9_witness :
    strEndsWith (saved_expiry_string ⟨2031, 4, 5, 6, 7, 8, 0, false⟩) "+00:00" = true ∧
    parse_expiry 0 ("2031-04-05T06:07:08" ++ "Z") = parse_expiry 0 "2031-04-05T06:07:08" ∧
    parse_expiry 0 ("2031-04-05T06:07:08" ++ "+00:00") =
      parse_expiry 0 "2031-04-05T06:07:08" :=
  ⟨(c9_expiry_serialization.1 ⟨2031, 4, 5, 6, 7, 8, 0, false⟩).2,
   (c9_expiry_serialization.2.1 "2031-04-05T06:07:08" ⟨2031, 4, 5, 6, 7, 8, 0, false⟩
      rfl rfl rfl rfl rfl rfl).2.1,
   (c9_expiry_serialization.2.1 "2031-04-05T06:07:08" ⟨2031, 4, 5, 6, 7, 8, 0, false⟩
      rfl rfl rfl rfl rfl rfl).2.2⟩

/-- Once the started flag is set, it stays set. -/
theorem run_lines_true (jp : String → Option Json) (ls : List String) :
    (run_lines jp ls true).2.1 = true := by
  induction ls with
  | nil => rfl
  | cons l rest ih =>
      simp only [run_lines]
      cases h : stream_line_step jp l <;> simp [ih]

/-- If an attempt ends with the started flag still clear, it yielded no
frames. -/
theorem run_lines_not_started (jp : String → Option Json) (ls : List String)
    (st : Bool) (h : (run_lines jp ls st).2.1 = false) :
    (run_lines jp ls st).1 = [] := by
  induction ls with
  | nil => rfl
  | cons l rest ih =>
      simp only [run_lines] at h ⊢
      cases hs : stream_line_step jp l with
      | skip => rw [hs] at h; exact ih h
      | emit j =>
          rw [hs] at h
          simp only at h
          rw [run_lines_true jp rest] at h
          exact absurd h (by simp)
      | raiseTypeErr m => rfl

/-- A skipped line contributes nothing to the read loop. -/
theorem run_lines_insert_skip (jp : String → Option Json) (l : String)
    (hl : stream_line_step jp l = .skip) :
    ∀ (ls1 ls2 : List String) (st : Bool),
      run_lines jp (ls1 ++ l :: ls2) st = run_lines jp (ls1 ++ ls2) st := by
  intro ls1
  induction ls1 with
  | nil =>
      intro ls2 st
      simp [run_lines, hl]
  | cons l1 rest ih =>
      intro ls2 st
      simp only [List.cons_append, run_lines, List.append_eq]
      cases h1 : stream_line_step jp l1 <;> simp [ih]

/-- The attempt step only sees the delivered lines through run_lines. -/
theorem stream_attempt_lines_congr (jp : String → Option Json) (cfg : RetryConfig)
    (ls ls' : List String)
    (hruns : ∀ st, run_lines jp ls st = run_lines jp ls' st)
    (status : Nat) (ra : Option ℚ) (body : String) (d : Option String)
    (attempt : Nat) (started : Bool) :
    stream_attempt jp cfg (.httpResponse status ra body ls d) attempt started =
      stream_attempt jp cfg (.httpResponse status ra body ls' d) attempt started := by
  simp only [stream_attempt, hruns started]

/-- Unfolding of the attempt loop when attempts remain. -/
theorem stream_groups_cons (jp : String → Option Json) (cfg : RetryConfig)
    (a : UpstreamAttempt) (rest : List UpstreamAttempt) (attempt : Nat)
    (started : Bool) (lastExc : Option String) (h : ¬ cfg.max_attempts < attempt) :
    stream_groups jp cfg (a :: rest) attempt started lastExc =
      match stream_attempt jp cfg a attempt started with
      | .terminal fs => [fs]
      | .retry fs st2 exc =>
          fs :: stream_groups jp cfg rest (attempt + 1) st2
            (match exc with | some m => some m | none => lastExc) := by
  rw [stream_groups]
  simp [h]

/-- Unfolding of the attempt loop once attempts are exhausted. -/
theorem stream_groups_over (jp : String → Option Json) (cfg : RetryConfig)
    (script : List UpstreamAttempt) (attempt : Nat) (started : Bool)
    (lastExc : Option String) (h : cfg.max_attempts < attempt) :
    stream_groups jp cfg script attempt started lastExc =
      match lastExc with
      | some m => [[transport_error_frame m]]
      | none => [[unexpected_error_frame "Streaming request exhausted without response"]] := by
  cases script <;> (rw [stream_groups]; simp [h])

/-- Replacing the lines of one attempt by run_lines-equivalent lines leaves
the grouped output unchanged. -/
theorem stream_groups_lines_congr (jp : String → Option Json) (cfg : RetryConfig)
    (ls ls' : List String)
    (hruns : ∀ st, run_lines jp ls st = run_lines jp ls' st) :
    ∀ (pre post : List UpstreamAttempt) (status : Nat) (ra : Option ℚ) (body : String)
      (d : Option String) (attempt : Nat) (started : Bool) (lastExc : Option String),
      stream_groups jp cfg (pre ++ .httpResponse status ra body ls d :: post)
          attempt started lastExc =
        stream_groups jp cfg (pre ++ .httpResponse status ra body ls' d :: post)
          attempt started lastExc := by
  intro pre
  induction pre with
  | nil =>
      intro post status ra body d attempt started lastExc
      simp only [List.nil_append]
      by_cases hb : cfg.max_attempts < attempt
      · rw [stream_groups_over jp cfg _ _ _ _ hb, stream_groups_over jp cfg _ _ _ _ hb]
      · rw [stream_groups_cons jp cfg _ _ _ _ _ hb, stream_groups_cons jp cfg _ _ _ _ _ hb]
        rw [stream_attempt_lines_congr jp cfg ls ls' hruns]
  | cons a rest ih =>
      intro post status ra body d attempt started lastExc
      simp only [List.cons_append]
      by_cases hb : cfg.max_attempts < attempt
      · rw [stream_groups_over jp cfg _ _ _ _ hb, stream_groups_over jp cfg _ _ _ _ hb]
      · rw [stream_groups_cons jp cfg _ _ _ _ _ hb, stream_groups_cons jp cfg _ _ _ _ _ hb]
        cases stream_attempt jp cfg a attempt started with
        | terminal fs => rfl
        | retry fs st2 exc => simp only [ih]

/-- C7: an upstream SSE line that is blank, not a data line, or whose data
payload fails to parse is skipped: it contributes no emitted frame, never
terminates the read loop, and deleting it leaves the whole streamed output
unchanged. -/
theorem c7_skippable_lines (jp : String → Option Json) (cfg : RetryConfig) (l : String)
    (hskip : l = "" ∨ strStartsWith l "data: " = false ∨ jp (strDropN l 6) = none) :
    (∀ (ls1 ls2 : List String) (st : Bool),
       run_lines jp (ls1 ++ l :: ls2) st = run_lines jp (ls1 ++ ls2) st) ∧
    (∀ (pre post : List UpstreamAttempt) (status : Nat) (ra : Option ℚ)
       (body : String) (ls1 ls2 : List String) (d : Option String)
       (attempt : Nat) (started : Bool) (lastExc : Option String),
       stream_groups jp cfg
           (pre ++ .httpResponse status ra body (ls1 ++ l :: ls2) d :: post)
           attempt started lastExc =
         stream_groups jp cfg
           (pre ++ .httpResponse status ra body (ls1 ++ ls2) d :: post)
           attempt started lastExc) := by
  have hstep : stream_line_step jp l = .skip := by
    rcases hskip with h | h | h
    · subst h; rfl
    · simp [stream_line_step, h]
    · by_cases hsw : strStartsWith l "data: " = true
      · by_cases he : l = ""
        · subst he; rfl
        · simp [stream_line_step, he, hsw, h]
      · simp only [Bool.not_eq_true] at hsw
        simp [stream_line_step, hsw]
  refine ⟨run_lines_insert_skip jp l hstep, ?_⟩
  intro pre post status ra body ls1 ls2 d attempt started lastExc
  exact stream_groups_lines_congr jp cfg (ls1 ++ l :: ls2) (ls1 ++ ls2)
    (fun st => run_lines_insert_skip jp l hstep ls1 ls2 st) pre post status ra body d
    attempt started lastExc

/-- Concrete instance of the C7 theorem: an unparseable data line is
dropped from a one-frame stream without effect. -/
theorem c7_witness :
    run_lines (fun s => if s = "{}" then some (.obj []) else none)
        (["data: notjson"] ++ ["data: {}"]) false =
      run_lines (fun s => if s = "{}" then some (.obj []) else none) ["data: {}"] false :=
  (c7_skippable_lines (fun s => if s = "{}" then some (.obj []) else none)
      ⟨10, 1, 30, [429, 500, 502, 503, 504]⟩ "data: notjson"
      (Or.inr (Or.inr rfl))).1 [] ["data: {}"] false

/-- A retried attempt yielded no frames. -/
theorem stream_attempt_retry_empty (jp : String → Option Json) (cfg : RetryConfig)
    (a : UpstreamAttempt) (attempt : Nat) (started : Bool)
    (fs : List String) (st2 : Bool) (exc : Option String)
    (h : stream_attempt jp cfg a attempt started = .retry fs st2 exc) :
    fs = [] := by
  cases a with
  | requestError m =>
      simp only [stream_attempt] at h
      split at h
      · exact absurd h (by simp)
      · injection h with h1 h2 h3
        exact h1.symm
  | httpResponse status ra body lines drop =>
      simp only [stream_attempt] at h
      split at h
      · split at h
        · exact absurd h (by simp)
        · split at h
          · exact absurd h (by simp)
          · split at h
            · exact absurd h (by simp)
            · rename_i hcond
              injection h with h1 h2 h3
              subst h1
              simp only [Bool.or_eq_true, not_or, Bool.not_eq_true] at hcond
              exact run_lines_not_started jp lines started hcond.1
      · split at h
        · injection h with h1 h2 h3
          exact h1.symm
        · exact absurd h (by simp)

/-- C4 part A core: every group before the last is empty — retries happen
only on attempts that emitted nothing. -/
theorem stream_groups_dropLast_empty (jp : String → Option Json) (cfg : RetryConfig) :
    ∀ (script : List UpstreamAttempt) (attempt : Nat) (started : Bool)
      (lastExc : Option String) (g : List String),
      g ∈ (stream_groups jp cfg script attempt started lastExc).dropLast → g = [] := by
  intro script
  induction script with
  | nil =>
      intro attempt started lastExc g hg
      rw [stream_groups] at hg
      simp only at hg
      split at hg
      · split at hg <;> simp at hg
      · simp at hg
  | cons a rest ih =>
      intro attempt started lastExc g hg
      by_cases hb : cfg.max_attempts < attempt
      · rw [stream_groups_over jp cfg _ _ _ _ hb] at hg
        split at hg <;> simp at hg
      · rw [stream_groups_cons jp cfg _ _ _ _ _ hb] at hg
        cases hstep : stream_attempt jp cfg a attempt started with
        | terminal fs => rw [hstep] at hg; simp at hg
        | retry fs st2 exc =>
            rw [hstep] at hg
            simp only at hg
            have hfs := stream_attempt_retry_empty jp cfg a attempt started fs st2 exc hstep
            subst hfs
            have key : ∀ X : Option String,
                g ∈ ([] :: stream_groups jp cfg rest (attempt + 1) st2 X).dropLast →
                g = [] := by
              intro X hgX
              cases hLc : stream_groups jp cfg rest (attempt + 1) st2 X with
              | nil => rw [hLc] at hgX; simp at hgX
              | cons g1 gs =>
                  rw [hLc, List.dropLast_cons₂] at hgX
                  rcases List.mem_cons.mp hgX with hgf | hgd
                  · exact hgf
                  · have hih := ih (attempt + 1) st2 X g
                    rw [hLc] at hih
                    exact hih hgd
            cases exc with
            | some m => exact key (some m) hg
            | none => exact key lastExc hg

/-- An attempt outcome that triggers a retry before any output: a transport
error before the response, or a retryable non-200 status. -/
def RetriableAttempt (cfg : RetryConfig) : UpstreamAttempt → Prop
  | .requestError _ => True
  | .httpResponse status _ _ _ _ => status ≠ 200 ∧ status ∈ cfg.retryable_status_codes

/-- C4 part B core: a run of pre-output retryable attempts inside the
attempt budget, ending in a 200 whose stream emits frames and then drops,
yields exactly the frames of the last attempt followed by one terminal
transport error event, with every earlier group empty. -/
theorem stream_groups_midstream_drop (jp : String → Option Json) (cfg : RetryConfig)
    (lines : List String) (m : String) (ra : Option ℚ) (body : String)
    (fs : List String)
    (hrun : run_lines jp lines false = (fs, true, none)) :
    ∀ (pre : List UpstreamAttempt) (attempt : Nat) (lastExc : Option String),
      (∀ a ∈ pre, RetriableAttempt cfg a) →
      attempt + pre.length ≤ cfg.max_attempts →
      stream_groups jp cfg
          (pre ++ [.httpResponse 200 ra body lines (some m)]) attempt false lastExc =
        List.replicate pre.length [] ++ [fs ++ [transport_error_frame m]] := by
  intro pre
  induction pre with
  | nil =>
      intro attempt lastExc _hret hle
      simp only [List.nil_append, List.replicate_zero]
      have hb : ¬ cfg.max_attempts < attempt := by omega
      rw [stream_groups_cons jp cfg _ _ _ _ _ hb]
      simp only [stream_attempt, hrun]
      rfl
  | cons a rest ih =>
      intro attempt lastExc hret hle
      have hb : ¬ cfg.max_attempts < attempt := by
        simp only [List.length_cons] at hle
        omega
      have hlt : attempt < cfg.max_attempts := by
        simp only [List.length_cons] at hle
        omega
      simp only [List.cons_append, List.length_cons, List.replicate_succ]
      rw [stream_groups_cons jp cfg _ _ _ _ _ hb]
      cases a with
      | requestError m2 =>
          have hstep : stream_attempt jp cfg (.requestError m2) attempt false
              = .retry [] false (some m2) := by
            simp only [stream_attempt, Bool.false_or]
            rw [if_neg]
            simp only [decide_eq_true_eq]
            omega
          rw [hstep]
          show [] :: stream_groups jp cfg
              (rest ++ [.httpResponse 200 ra body lines (some m)])
              (attempt + 1) false (some m2)
            = [] :: (List.replicate rest.length [] ++ [fs ++ [transport_error_frame m]])
          rw [ih (attempt + 1) (some m2)
            (fun x hx => hret x (List.mem_cons_of_mem _ hx))
            (by simp only [List.length_cons] at hle; omega)]
      | httpResponse st2 ra2 body2 ls2 d2 =>
          have hr := hret _ (List.mem_cons_self _ _)
          simp only [RetriableAttempt] at hr
          have hstep : stream_attempt jp cfg (.httpResponse st2 ra2 body2 ls2 d2)
              attempt false = .retry [] false none := by
            simp only [stream_attempt]
            rw [if_neg hr.1,
              if_pos (⟨hr.2, hlt⟩ :
                st2 ∈ cfg.retryable_status_codes ∧ attempt < cfg.max_attempts)]
          rw [hstep]
          show [] :: stream_groups jp cfg
              (rest ++ [.httpResponse 200 ra body lines (some m)])
              (attempt + 1) false lastExc
            = [] :: (List.replicate rest.length [] ++ [fs ++ [transport_error_frame m]])
          rw [ih (attempt + 1) lastExc
            (fun x hx => hret x (List.mem_cons_of_mem _ hx))
            (by simp only [List.length_cons] at hle; omega)]

/-- C4: streaming retries happen only before the first emitted byte — every
attempt group before the last is empty — and a transport drop after frames
have been emitted is terminal: the caller sees exactly those frames
followed by one in-band error event, with no further upstream attempt. -/
theorem c4_stream_retry_discipline :
    (∀ (jp : String → Option Json) (cfg : RetryConfig)
        (script : List UpstreamAttempt) (g : List String),
        g ∈ (stream_groups jp cfg script 1 false none).dropLast → g = []) ∧
    (∀ (jp : String → Option Json) (cfg : RetryConfig)
        (pre : List UpstreamAttempt) (lines : List String) (m : String)
        (ra : Option ℚ) (body : String) (fs : List String),
        (∀ a ∈ pre, RetriableAttempt cfg a) →
        pre.length + 1 ≤ cfg.max_attempts →
        run_lines jp lines false = (fs, true, none) →
        stream_emitted jp cfg (pre ++ [.httpResponse 200 ra body lines (some m)]) =
          fs ++ [transport_error_frame m]) := by
  constructor
  · intro jp cfg script g hg
    exact stream_groups_dropLast_empty jp cfg script 1 false none g hg
  · intro jp cfg pre lines m ra body fs hret hlen hrun
    have hflat : ∀ (n : Nat) (x : List String),
        ((List.replicate n ([] : List String)) ++ [x]).foldr (· ++ ·) [] = x := by
      intro n x
      induction n with
      | zero => simp
      | succ k ih => simpa [List.replicate_succ] using ih
    unfold stream_emitted
    rw [stream_groups_midstream_drop jp cfg lines m ra body fs hrun pre 1 none hret
      (by omega)]
    exact hflat pre.length _

/-- Concrete instance of the C4 theorem: one failed connection, then a
stream that emits a frame and drops; the output is that frame plus one
terminal error event, and the first attempt group is empty. -/
theorem c4_witness :
    stream_emitted (fun s => if s = "{}" then some (.obj []) else none)
        ⟨10, 1, 30, [429, 500, 502, 503, 504]⟩
        [.requestError "boom", .httpResponse 200 none "" ["data: {}"] (some "drop")] =
      ["data: {}\n\n", transport_error_frame "drop"] ∧
    ([] ∈ (stream_groups (fun s => if s = "{}" then some (.obj []) else none)
        ⟨10, 1, 30, [429, 500, 502, 503, 504]⟩
        [.requestError "boom", .httpResponse 200 none "" ["data: {}"] (some "drop")]
        1 false none).dropLast → ([] : List String) = []) :=
  ⟨c4_stream_retry_discipline.2
      (fun s => if s = "{}" then some (.obj []) else none)
      ⟨10, 1, 30, [429, 500, 502, 503, 504]⟩
      [.requestError "boom"] ["data: {}"] "drop" none "" ["data: {}\n\n"]
      (by intro a ha
          simp only [List.mem_singleton] at ha
          subst ha
          trivial)
      (by decide)
      rfl,
   fun h => c4_stream_retry_discipline.1
      (fun s => if s = "{}" then some (.obj []) else none)
      ⟨10, 1, 30, [429, 500, 502, 503, 504]⟩
      [.requestError "boom", .httpResponse 200 none "" ["data: {}"] (some "drop")]
      [] h⟩
